import Mathlib

/-!
# Verification of the daily cash-flow ledger pipeline (`app.py`)

Shallow embedding of the core pipeline of the repository's single source file
`app.py`: locale-sensitive scalar parsing (`parse_decimal_br`, `parse_date`),
schema resolution (`identify_csv_type`), per-source row classification
(`process_contas_pagas`, `process_contas_a_pagar`,
`process_contas_receber_recebidas`), and the daily aggregation / balance
anchoring / KPI logic of `main`.

Modelling conventions:
* Python floats are modelled as `ℚ` (the pipeline only parses decimal strings
  and adds/sums them; binary rounding is not modelled).
* `datetime` values are modelled as `Int` — seconds since 1970-01-01 00:00:00,
  computed from calendar fields by `daysFromCivil`.  This keeps the
  time-of-day component that the `%H:%M:%S` formats of `parse_date` produce
  and that `pd.date_range`/`groupby` compare exactly.
* A pandas DataFrame is a list of column names plus rows of string cells
  (`DataFrame`); `row.get(col)` is `dfGet`, returning `none` for an absent
  column (pandas returns `None`/the supplied default).
* Python `float(s)` on a string is `pyFloat` below: optional surrounding
  whitespace, optional sign, digits with at most one decimal point (at least
  one digit), optional exponent.  The `inf`/`nan` words and `_` digit
  separators accepted by CPython are not modelled; no input in scope
  produces them.

The rational arithmetic of the Batteries `Rat` is `@[irreducible]`, which
blocks `decide` on concrete ledger values; the attribute below restores the
definitional behaviour for this file (the kernel itself always unfolds these
definitions, so checked proofs are unaffected).
-/

set_option allowUnsafeReducibility true

attribute [local semireducible] Rat.add Rat.mul Rat.inv Rat.sub Rat.ofScientific

/-- Decimal digit value of a character, `none` if not a digit. -/
def digitVal (c : Char) : Option Nat :=
  if c.isDigit then some (c.toNat - 48) else none

/-- Natural number denoted by a digit list (most significant first). -/
def digitsToNat (cs : List Char) : Nat :=
  cs.foldl (fun acc c => acc * 10 + (c.toNat - 48)) 0

/-- All characters are decimal digits. -/
def allDigits (cs : List Char) : Bool :=
  cs.all (·.isDigit)

/-- Strip whitespace from both ends of a character list (Python `str.strip()`,
Lean's core `String.trim` is avoided because its implementation does not
reduce inside the kernel). -/
def trimWs (cs : List Char) : List Char :=
  ((cs.dropWhile (·.isWhitespace)).reverse.dropWhile (·.isWhitespace)).reverse

/-- Remove every (non-overlapping, left-to-right) occurrence of `R$`
(Python `str.replace("R$", "")`). -/
def removeRS : List Char → List Char
  | 'R' :: '$' :: rest => removeRS rest
  | c :: rest => c :: removeRS rest
  | [] => []

/-- Python `float(s)` on a string, as an exact rational: optional surrounding
whitespace, optional sign, a mantissa holding at least one digit and at most
one `.`, and an optional decimal exponent.  Returns `none` where CPython
raises `ValueError`. -/
def pyFloat (s : List Char) : Option ℚ :=
  let cs := trimWs s
  let (sign, cs) : ℚ × List Char :=
    match cs with
    | '+' :: rest => (1, rest)
    | '-' :: rest => (-1, rest)
    | rest => (1, rest)
  let intPart := cs.takeWhile (·.isDigit)
  let cs := cs.dropWhile (·.isDigit)
  let (fracPart, cs) : List Char × List Char :=
    match cs with
    | '.' :: rest => (rest.takeWhile (·.isDigit), rest.dropWhile (·.isDigit))
    | rest => ([], rest)
  if intPart.isEmpty && fracPart.isEmpty then none
  else
    let mant : ℚ := (digitsToNat intPart : ℚ) +
      (digitsToNat fracPart : ℚ) / ((10 : ℚ) ^ fracPart.length)
    match cs with
    | [] => some (sign * mant)
    | 'e' :: rest => pyFloatExp sign mant rest
    | 'E' :: rest => pyFloatExp sign mant rest
    | _ => none
where
  /-- Exponent suffix of a float literal: optional sign then ≥ 1 digits,
  consuming the whole remainder. -/
  pyFloatExp (sign mant : ℚ) (cs : List Char) : Option ℚ :=
    let (esign, cs) : Int × List Char :=
      match cs with
      | '+' :: rest => (1, rest)
      | '-' :: rest => (-1, rest)
      | rest => (1, rest)
    if cs.isEmpty || !allDigits cs then none
    else some (sign * mant * (10 : ℚ) ^ (esign * (digitsToNat cs : Int)))

/-- The characters of `s` strictly before the last `,` (empty if no comma);
models the Python slice `s[0:s.rfind(',')]` as used under a `',' in s`
guard. -/
def beforeLastComma (s : List Char) : List Char :=
  ((s.reverse.dropWhile (· ≠ ',')).drop 1).reverse

/-- `app.py` `parse_decimal_br`: Brazilian-locale decimal parsing.  `none`
input models a missing cell / non-string (`pd.isna` short-circuit).  Strips
`R$` and whitespace; if a comma is present and a period occurs before the
last comma, drops the thousands periods; converts `,` to `.`; falls back to
keeping only digits and periods; returns `0` when everything fails. -/
def parse_decimal_br (value : Option String) : ℚ :=
  match value with
  | none => 0
  | some v =>
    if (trimWs v.data).isEmpty then 0
    else
      let s := trimWs (removeRS v.data)
      if s.isEmpty then 0
      else
        let s :=
          if s.contains ',' && (beforeLastComma s).contains '.' then
            s.filter (· ≠ '.')
          else s
        let s := s.map (fun c => if c = ',' then '.' else c)
        match pyFloat s with
        | some q => q
        | none =>
          let cleaned := s.filter (fun c => c.isDigit || c = '.')
          match pyFloat cleaned with
          | some q => q
          | none => 0

/-- Whether `y` is a leap year (proleptic Gregorian, as `datetime`). -/
def isLeapYear (y : Int) : Bool :=
  y % 4 = 0 && (y % 100 ≠ 0 || y % 400 = 0)

/-- Number of days in month `m` of year `y`. -/
def daysInMonth (y : Int) (m : Nat) : Nat :=
  if m = 2 then (if isLeapYear y then 29 else 28)
  else if m = 4 || m = 6 || m = 9 || m = 11 then 30
  else 31

/-- Days from 1970-01-01 to year `y`, month `m`, day `d` (civil-calendar
conversion, Howard Hinnant's `days_from_civil`). -/
def daysFromCivil (y : Int) (m d : Nat) : Int :=
  let y' : Int := if m ≤ 2 then y - 1 else y
  let era : Int := (if 0 ≤ y' then y' else y' - 399) / 400
  let yoe : Nat := (y' - era * 400).toNat
  let mp : Nat := if m > 2 then m - 3 else m + 9
  let doy : Nat := (153 * mp + 2) / 5 + d - 1
  let doe : Nat := yoe * 365 + yoe / 4 - yoe / 100 + doy
  era * 146097 + (doe : Int) - 719468

/-- Seconds since the epoch of the datetime with the given calendar fields. -/
def mkTimestamp (y : Int) (mo d hh mi ss : Nat) : Int :=
  86400 * daysFromCivil y mo d + 3600 * hh + 60 * mi + ss

/-- Parse exactly four digits (the `%Y` directive). -/
def parseYear4 : List Char → Option (Nat × List Char)
  | a :: b :: c :: d :: rest =>
    if a.isDigit && b.isDigit && c.isDigit && d.isDigit then
      some (digitsToNat [a, b, c, d], rest)
    else none
  | _ => none

/-- Parse one or two digits with `strptime`'s alternation semantics: a
two-digit match whose value lies in `[lo2, hi2]` is preferred, else a single
digit in `[lo1, hi1]`.  (Every 1–2-digit directive in the formats used by
`parse_date` is followed by a non-digit separator or the end of input, so
regex backtracking never produces a different outcome.) -/
def parse2or1 (lo2 hi2 lo1 hi1 : Nat) : List Char → Option (Nat × List Char)
  | a :: b :: rest =>
    if a.isDigit && b.isDigit &&
        lo2 ≤ digitsToNat [a, b] && digitsToNat [a, b] ≤ hi2 then
      some (digitsToNat [a, b], rest)
    else if a.isDigit && lo1 ≤ digitsToNat [a] && digitsToNat [a] ≤ hi1 then
      some (digitsToNat [a], b :: rest)
    else none
  | a :: rest =>
    if a.isDigit && lo1 ≤ digitsToNat [a] && digitsToNat [a] ≤ hi1 then
      some (digitsToNat [a], rest)
    else none
  | [] => none

/-- Match one literal character. -/
def parseLit (c : Char) : List Char → Option (List Char)
  | x :: rest => if x = c then some rest else none
  | [] => none

/-- Parse the `%H:%M:%S` suffix (hour 0–23, minute 0–59, second 0–61 at the
regex level — only `%S` admits the leap-second values). -/
def parseHMS (cs : List Char) : Option (Nat × Nat × Nat × List Char) :=
  match parse2or1 0 23 0 9 cs with
  | none => none
  | some (hh, cs) =>
    match parseLit ':' cs with
    | none => none
    | some cs =>
      match parse2or1 0 59 0 9 cs with
      | none => none
      | some (mi, cs) =>
        match parseLit ':' cs with
        | none => none
        | some cs =>
          match parse2or1 0 61 0 9 cs with
          | none => none
          | some (ss, cs) => some (hh, mi, ss, cs)

/-- Validity checks performed by the `datetime` constructor after the regex
match: real calendar day, year ≥ 1, second ≤ 59. -/
def validDateTime (y : Int) (mo d ss : Nat) : Bool :=
  1 ≤ y && 1 ≤ d && d ≤ daysInMonth y mo && ss ≤ 59

/-- `datetime.strptime(s, "%Y-%m-%d[ %H:%M:%S]")`, `none` on `ValueError`. -/
def strptimeYmd (withTime : Bool) (s : String) : Option Int :=
  match parseYear4 s.data with
  | none => none
  | some (y, cs) =>
    match parseLit '-' cs with
    | none => none
    | some cs =>
      match parse2or1 1 12 1 9 cs with
      | none => none
      | some (mo, cs) =>
        match parseLit '-' cs with
        | none => none
        | some cs =>
          match parse2or1 1 31 1 9 cs with
          | none => none
          | some (d, cs) =>
            if withTime then
              match parseLit ' ' cs with
              | none => none
              | some cs =>
                match parseHMS cs with
                | some (hh, mi, ss, []) =>
                  if validDateTime (y : Int) mo d ss then
                    some (mkTimestamp (y : Int) mo d hh mi ss)
                  else none
                | _ => none
            else
              match cs with
              | [] =>
                if validDateTime (y : Int) mo d 0 then
                  some (mkTimestamp (y : Int) mo d 0 0 0)
                else none
              | _ => none

/-- `datetime.strptime(s, "%d/%m/%Y[ %H:%M:%S]")`, `none` on `ValueError`. -/
def strptimeDmy (withTime : Bool) (s : String) : Option Int :=
  match parse2or1 1 31 1 9 s.data with
  | none => none
  | some (d, cs) =>
    match parseLit '/' cs with
    | none => none
    | some cs =>
      match parse2or1 1 12 1 9 cs with
      | none => none
      | some (mo, cs) =>
        match parseLit '/' cs with
        | none => none
        | some cs =>
          match parseYear4 cs with
          | none => none
          | some (y, cs) =>
            if withTime then
              match parseLit ' ' cs with
              | none => none
              | some cs =>
                match parseHMS cs with
                | some (hh, mi, ss, []) =>
                  if validDateTime (y : Int) mo d ss then
                    some (mkTimestamp (y : Int) mo d hh mi ss)
                  else none
                | _ => none
            else
              match cs with
              | [] =>
                if validDateTime (y : Int) mo d 0 then
                  some (mkTimestamp (y : Int) mo d 0 0 0)
                else none
              | _ => none

/-- The text before the first `.` of `s`  (Python `str(x).split('.')[0]`). -/
def beforeFirstDot (s : String) : String :=
  ⟨s.data.takeWhile (· ≠ '.')⟩

/-- The ordered format attempts of `app.py` `parse_date`, applied to the
already-preprocessed text. -/
def tryDateFormats (s : String) : Option Int :=
  match strptimeYmd true s with
  | some t => some t
  | none =>
    match strptimeYmd false s with
    | some t => some t
    | none =>
      match strptimeDmy true s with
      | some t => some t
      | none => strptimeDmy false s

/-- `app.py` `parse_date`: `none` input models `pd.isna`; the empty string is
rejected; the text before the first `.` is matched against
`['%Y-%m-%d %H:%M:%S', '%Y-%m-%d', '%d/%m/%Y %H:%M:%S', '%d/%m/%Y']` in
order, first success winning; `none` on total failure.  (The
datetime-instance pass-through branch has no counterpart: cells are
strings.) -/
def parse_date (value : Option String) : Option Int :=
  match value with
  | none => none
  | some s =>
    if s = "" then none
    else tryDateFormats (beforeFirstDot s)

/-! ## Raw tables and the Schema Resolver -/

/-- A raw table: ordered column headers (already stripped, as
`load_and_process_csv` strips them) and rows of string cells. -/
structure DataFrame where
  cols : List String
  rows : List (List String)

/-- Index of the first occurrence of column `c`, `none` when absent. -/
def colIdx (cols : List String) (c : String) : Option Nat :=
  match cols with
  | [] => none
  | x :: xs => if x = c then some 0 else (colIdx xs c).map (· + 1)

/-- `row.get(c)` of pandas: the cell under column `c`, `none` when the
column is absent from the table. -/
def dfGet (df : DataFrame) (row : List String) (c : String) : Option String :=
  (colIdx df.cols c).map (fun i => row.getD i "")

/-- `row.get(c, d)`: like `dfGet` with a default for an absent column. -/
def dfGetD (df : DataFrame) (row : List String) (c d : String) : String :=
  (dfGet df row c).getD d

/-- `app.py` `COLS_PAGAS_IDENTIFIERS`. -/
def COLS_PAGAS_IDENTIFIERS : List String :=
  ["Data pagamento", "Valor Líquido", "Usuário cadastro baixa", "Desc forma pagto"]

/-- `app.py` `COLS_A_PAGAR_IDENTIFIERS`. -/
def COLS_A_PAGAR_IDENTIFIERS : List String :=
  ["Origem título", "Usuário cadastro", "Data alteração", "Código plano fin"]

/-- `app.py` `COLS_RECEBER_RECEBIDAS_IDENTIFIERS`. -/
def COLS_RECEBER_RECEBIDAS_IDENTIFIERS : List String :=
  ["Status da parcela", "Nosso número", "Valor da baixa", "Valor devido"]

/-- `app.py` `identify_csv_type`: classify a table from its column headers.
The second Python `if` (Contas a Pagar) falls through to the third when its
inner column test fails, which the nested conditional below mirrors. -/
def identify_csv_type (cols : List String) : String :=
  if COLS_PAGAS_IDENTIFIERS.all (fun c => decide (c ∈ cols)) &&
      !decide ("Status da parcela" ∈ cols) then
    if decide ("Data pagamento" ∈ cols) && decide ("Usuário cadastro baixa" ∈ cols) then
      "Contas Pagas"
    else
      "Potencial Contas Pagas/Pagar (Verificar colunas Data Pagamento vs Data Vencimento)"
  else if COLS_A_PAGAR_IDENTIFIERS.all (fun c => decide (c ∈ cols)) &&
      !decide ("Data pagamento" ∈ cols) && !decide ("Status da parcela" ∈ cols) &&
      decide ("Valor corr monetária" ∈ cols) && decide ("Data cadastro" ∈ cols) &&
      decide ("Código forma pagto" ∈ cols) then
    "Contas a Pagar"
  else if COLS_RECEBER_RECEBIDAS_IDENTIFIERS.all (fun c => decide (c ∈ cols)) then
    "Contas a Receber/Recebidas"
  else
    "Desconhecido"

/-! ## Transactions and the per-source classifiers -/

/-- A canonical transaction record, with the fields the processors build. -/
structure Tx where
  Data : Int
  Valor : ℚ
  Descricao : String
  Tipo : String
  Detalhe : String
  Fonte : String
  CredorCliente : Option String
  Status : String
deriving DecidableEq

/-- `df.drop_duplicates(subset=...)` with the default `keep='first'`: keep a
row when its key has not been seen on an earlier row. -/
def dedupByKey (key : List String → List (Option String)) :
    List (List String) → List (List (Option String)) → List (List String)
  | [], _ => []
  | r :: rs, seen =>
    if key r ∈ seen then dedupByKey key rs seen
    else r :: dedupByKey key rs (key r :: seen)

/-- The dedup key columns of `process_contas_pagas`. -/
def keyPaymentCols : List String :=
  ["Título", "Parcela", "Data pagamento", "Valor Líquido", "Código credor"]

/-- The key columns of `process_contas_pagas` that the table actually has. -/
def actualSubsetCols (df : DataFrame) : List String :=
  keyPaymentCols.filter (fun c => decide (c ∈ df.cols))

/-- The deduplicated rows of a Paid table: `drop_duplicates` over the key
columns present in the table, or all rows when none is present. -/
def pagasDedupRows (df : DataFrame) : List (List String) :=
  if actualSubsetCols df = [] then df.rows
  else dedupByKey (fun r => (actualSubsetCols df).map (dfGet df r)) df.rows []

/-- One row of a Paid table → at most one `Realizado Saída` transaction
(payment date parses and net amount nonzero; outflows are negated). -/
def pagasRowTx (df : DataFrame) (r : List String) : Option Tx :=
  match parse_date (dfGet df r "Data pagamento") with
  | none => none
  | some dt =>
    let v := parse_decimal_br (dfGet df r "Valor Líquido")
    if v ≠ 0 then
      some
        { Data := dt
          Valor := -|v|
          Descricao := "Pag: " ++ dfGetD df r "Nome credor" "N/A" ++ " - " ++
            dfGetD df r "Obs título" "N/A"
          Tipo := "Realizado Saída"
          Detalhe := dfGetD df r "Desc plano fin" (dfGetD df r "Desc centro custo" "Pagamento")
          Fonte := "Contas Pagas"
          CredorCliente := dfGet df r "Nome credor"
          Status := "Pago" }
    else none

/-- `app.py` `process_contas_pagas`: dedup, then classify each row. -/
def process_contas_pagas (df : DataFrame) : List Tx :=
  (pagasDedupRows df).filterMap (pagasRowTx df)

/-- The dedup key columns of `process_contas_a_pagar`. -/
def keyPayableCols : List String :=
  ["Título", "Parcela", "Data vencimento", "Valor a pagar", "Código credor"]

/-- The deduplicated rows of a Payable table. -/
def aPagarDedupRows (df : DataFrame) : List (List String) :=
  let actual := keyPayableCols.filter (fun c => decide (c ∈ df.cols))
  if actual = [] then df.rows
  else dedupByKey (fun r => actual.map (dfGet df r)) df.rows []

/-- One row of a Payable table → at most one `Projetado Saída` transaction. -/
def aPagarRowTx (df : DataFrame) (r : List String) : Option Tx :=
  match parse_date (dfGet df r "Data vencimento") with
  | none => none
  | some dt =>
    let v := parse_decimal_br (dfGet df r "Valor a pagar")
    if v ≠ 0 then
      some
        { Data := dt
          Valor := -|v|
          Descricao := "APagar: " ++ dfGetD df r "Nome credor" "N/A" ++ " - " ++
            dfGetD df r "Obs título" "N/A"
          Tipo := "Projetado Saída"
          Detalhe := dfGetD df r "Desc plano fin" (dfGetD df r "Desc centro custo" "A Pagar")
          Fonte := "Contas a Pagar"
          CredorCliente := dfGet df r "Nome credor"
          Status := "A Pagar" }
    else none

/-- `app.py` `process_contas_a_pagar`. -/
def process_contas_a_pagar (df : DataFrame) : List Tx :=
  (aPagarDedupRows df).filterMap (aPagarRowTx df)

/-- `str(row.get('Status da parcela', '')).strip().lower()` as a character
list (ASCII lowering, which covers the markers the code compares against). -/
def statusParcela (df : DataFrame) (r : List String) : List Char :=
  (trimWs (dfGetD df r "Status da parcela" "").data).map Char.toLower

/-- One row of a Receivable table → at most one transaction: a
`Realizado Entrada` when the settlement date parses and the settled amount
is nonzero *or* the status is neither `a receber` nor `cancelado` (the
code's comment: "Consider 0 value if explicitly paid"); otherwise a
`Projetado Entrada` when the status is `a receber`, the due date parses and
the due amount is nonzero. -/
def receberRowTx (df : DataFrame) (r : List String) : Option Tx :=
  let status := statusParcela df r
  let data_baixa := parse_date (dfGet df r "Data da baixa")
  let valor_baixa := parse_decimal_br (dfGet df r "Valor da baixa")
  let data_vencimento := parse_date (dfGet df r "Data vencimento")
  let valor_devido := parse_decimal_br (dfGet df r "Valor devido")
  match data_baixa with
  | some dt =>
    if valor_baixa ≠ 0 ∨ status ∉ ["a receber".data, "cancelado".data] then
      some
        { Data := dt
          Valor := |valor_baixa|
          Descricao := "Rec: " ++ dfGetD df r "Cliente" "N/A" ++ " - Doc: " ++
            dfGetD df r "N° documento" "N/A"
          Tipo := "Realizado Entrada"
          Detalhe := dfGetD df r "Observação da baixa" "Recebimento"
          Fonte := "Contas Recebidas"
          CredorCliente := dfGet df r "Cliente"
          Status := "Recebido" }
    else receberRowProjTx df r status data_vencimento valor_devido
  | none => receberRowProjTx df r status data_vencimento valor_devido
where
  /-- The `elif` branch: projected inflow from a pending receivable. -/
  receberRowProjTx (df : DataFrame) (r : List String) (status : List Char)
      (data_vencimento : Option Int) (valor_devido : ℚ) : Option Tx :=
    match data_vencimento with
    | some dt =>
      if status = "a receber".data ∧ valor_devido ≠ 0 then
        some
          { Data := dt
            Valor := |valor_devido|
            Descricao := "ARec: " ++ dfGetD df r "Cliente" "N/A" ++ " - Doc: " ++
              dfGetD df r "N° documento" "N/A"
            Tipo := "Projetado Entrada"
            Detalhe := dfGetD df r "Observação do título" "A Receber"
            Fonte := "Contas a Receber"
            CredorCliente := dfGet df r "Cliente"
            Status := "A Receber" }
      else none
    | none => none

/-- `app.py` `process_contas_receber_recebidas` (no dedup for this source). -/
def process_contas_receber_recebidas (df : DataFrame) : List Tx :=
  df.rows.filterMap (receberRowTx df)

/-! ## Daily aggregation, balance anchoring and KPIs (`main`) -/

/-- Minimum of a list of timestamps (`Series.min()`; the empty case never
arises in the pipeline). -/
def listMinInt : List Int → Int
  | [] => 0
  | x :: xs => xs.foldl min x

/-- Maximum of a list of timestamps (`Series.max()`). -/
def listMaxInt : List Int → Int
  | [] => 0
  | x :: xs => xs.foldl max x

/-- `pd.date_range(start, stop, freq='D')`: `start`, `start + 1 day`, …,
while `≤ stop` (kept at `start`'s time of day). -/
def daterange (start stop : Int) : List Int :=
  if start ≤ stop then
    (List.range ((stop - start).toNat / 86400 + 1)).map
      (fun k => start + 86400 * Int.ofNat k)
  else []

/-- Sum of the amounts of the transactions dated `d` with type `tipo`
(`groupby(['Data', 'Tipo']).sum()` + `unstack(fill_value=0)` + left merge +
`fillna(0)`: a day with no matching transaction gets `0`). -/
def dailyFlow (txs : List Tx) (d : Int) (tipo : String) : ℚ :=
  ((txs.filter (fun t => decide (t.Data = d) && decide (t.Tipo = tipo))).map (·.Valor)).sum

/-- Running sums of a list starting from `acc` (`Series.cumsum()` shifted by
`acc`). -/
def cumsumFrom (acc : ℚ) : List ℚ → List ℚ
  | [] => []
  | x :: xs => (acc + x) :: cumsumFrom (acc + x) xs

/-- `Series.cumsum()`. -/
def cumsum (l : List ℚ) : List ℚ :=
  cumsumFrom 0 l

/-- Index of the first element equal to `a` (the `[0]` of the index of the
boolean mask `Data == anchor`; only used under an `a ∈ l` guard). -/
def firstIdx (a : Int) : List Int → Nat
  | [] => 0
  | x :: xs => if x = a then 0 else firstIdx a xs + 1

/-- The imperative fallback loop of `main` (the `else` branch taken when the
anchor date is not among the bucket dates), over `(date, flux)` pairs with
state `(current_balance, found_initial_date)`; also returns the final
`found_initial_date`.  `minD` is `cash_flow_summary['Data'].min()` and
`first` tracks `i == 0`. -/
def fallbackLoop (anchor : Int) (bal : ℚ) (minD : Int) :
    List (Int × ℚ) → ℚ → Bool → Bool → (List ℚ × Bool)
  | [], _, found, _ => ([], found)
  | (d, f) :: rest, cur, found, first =>
    let step : ℚ × Bool :=
      if d = anchor then (bal + f, true)
      else if found then (cur + f, found)
      else if anchor ≤ minD && !found then
        (bal + f, if anchor ≤ d then true else found)
      else if first then (f, found)
      else (cur + f, found)
    let tail := fallbackLoop anchor bal minD rest step.1 step.2 false
    (step.1 :: tail.1, tail.2)

/-- The cumulative-balance column `Posição Caixa Acumulada` of `main`: when
the anchor date is one of the bucket dates, the single prefix-sum formula
(`cumsum + initial_balance - sum of flows before the anchor row`); otherwise
the imperative fallback loop, followed by the post-loop adjustment that
overwrites the column with `cumsum + initial_balance` when the anchor
precedes every bucket date.  (The `elif cash_flow_summary.empty` assignment
inside a branch that already required a non-empty frame is dead code and has
no effect to model.) -/
def computeCum (dates : List Int) (flux : List ℚ) (anchor : Int) (bal : ℚ) : List ℚ :=
  if anchor ∈ dates then
    let idx := firstIdx anchor dates
    let sumBefore := (flux.take idx).sum
    (cumsum flux).map (· + (bal - sumBefore))
  else
    let minD := listMinInt dates
    let loopOut := fallbackLoop anchor bal minD (dates.zip flux) 0 false true
    if !loopOut.2 && !dates.isEmpty then
      if anchor < minD then (cumsum flux).map (· + bal)
      else loopOut.1
    else loopOut.1

/-- The daily cash-flow summary frame built by `main` (columns of
`cash_flow_summary`, in bucket-date order). -/
structure CashFlowSummary where
  dates : List Int
  realizadoEntrada : List ℚ
  realizadoSaida : List ℚ
  projetadoEntrada : List ℚ
  projetadoSaida : List ℚ
  fluxoRealizado : List ℚ
  fluxoProjetado : List ℚ
  posicaoAcumulada : List ℚ

/-- `main`'s construction of `cash_flow_summary` from the unified
transaction list, the anchor date and the opening balance: the bucket range
is `min(anchor, earliest Data) .. max(anchor, latest Data)` (just the anchor
when there are no transactions), each flow column is the per-day
`groupby` sum, the daily net flows add the entrada and saída columns (saída
amounts are stored negative), and the cumulative column is `computeCum`.
(The preceding `sort_values('Data')` does not change any of these
order-insensitive aggregates over `ℚ`.)  `summaryStart`/`summaryStop` name
`min_date_calc`/`max_date_calc` of `main`. -/
def summaryStart (txs : List Tx) (anchor : Int) : Int :=
  if txs.isEmpty then anchor else min anchor (listMinInt (txs.map (·.Data)))

/-- The end of the bucket range: `max(anchorDate, latest transaction date)`
(`anchor` itself without transactions). -/
def summaryStop (txs : List Tx) (anchor : Int) : Int :=
  if txs.isEmpty then anchor else max anchor (listMaxInt (txs.map (·.Data)))

/-- The assembly of `cash_flow_summary` from the pieces above. -/
def buildSummary (txs : List Tx) (anchor : Int) (bal : ℚ) : CashFlowSummary :=
  let dates := daterange (summaryStart txs anchor) (summaryStop txs anchor)
  let rE := dates.map (fun d => dailyFlow txs d "Realizado Entrada")
  let rS := dates.map (fun d => dailyFlow txs d "Realizado Saída")
  let pE := dates.map (fun d => dailyFlow txs d "Projetado Entrada")
  let pS := dates.map (fun d => dailyFlow txs d "Projetado Saída")
  let fluxR := List.zipWith (· + ·) rE rS
  let fluxP := List.zipWith (· + ·) pE pS
  { dates := dates
    realizadoEntrada := rE
    realizadoSaida := rS
    projetadoEntrada := pE
    projetadoSaida := pS
    fluxoRealizado := fluxR
    fluxoProjetado := fluxP
    posicaoAcumulada := computeCum dates fluxR anchor bal }

/-- The KPI block of `main`. -/
structure KPIs where
  totalRealizadoEntrada : ℚ
  totalRealizadoSaida : ℚ
  saldoRealizadoPeriodo : ℚ
  totalProjetadoEntrada : ℚ
  totalProjetadoSaida : ℚ
  saldoProjetadoPeriodo : ℚ
  resultadoFinal : ℚ
  minCaixa : ℚ

/-- Minimum of a rational column (`Series.min()` on a non-empty frame; the
`bal` default mirrors the `if not kpi_data.empty else initial_balance`). -/
def listMinRat (bal : ℚ) : List ℚ → ℚ
  | [] => bal
  | x :: xs => xs.foldl min x

/-- `main`'s KPI computation over the finished summary: column totals, the
period nets as entrada + saída column sums, the final balance as the last
cumulative value (`iloc[-1]`), and the minimum cash position. -/
def computeKPIs (s : CashFlowSummary) (bal : ℚ) : KPIs :=
  let tre := s.realizadoEntrada.sum
  let trs := s.realizadoSaida.sum
  let tpe := s.projetadoEntrada.sum
  let tps := s.projetadoSaida.sum
  { totalRealizadoEntrada := tre
    totalRealizadoSaida := trs
    saldoRealizadoPeriodo := tre + trs
    totalProjetadoEntrada := tpe
    totalProjetadoSaida := tps
    saldoProjetadoPeriodo := tpe + tps
    resultadoFinal := (s.posicaoAcumulada.getLast?).getD bal
    minCaixa := listMinRat bal s.posicaoAcumulada }

/-- `main`'s `pd.concat` of the three processed sources into the unified
transaction list. -/
def pipelineTxs (df1 df2 df3 : DataFrame) : List Tx :=
  process_contas_pagas df1 ++ process_contas_a_pagar df2 ++
    process_contas_receber_recebidas df3

/-- The deduplication the spec's §4.4 words describe: retain the first row
per distinct value of the full five-component identity key (document/title,
installment, payment date, net amount, counterparty), an absent column
contributing its missing marker.  Stated for comparison with the source's
`pagasDedupRows`, which deduplicates only over the key columns the table
has. -/
def specIdentityDedup (df : DataFrame) : List (List String) :=
  dedupByKey (fun r => keyPaymentCols.map (dfGet df r)) df.rows []

/-! ## Concrete tables used by witnesses and counterexamples -/

/-- A table with no columns and no rows. -/
def emptyDF : DataFrame :=
  { cols := [], rows := [] }

/-- A one-row Paid table: payment of `1.000,00` on 30/01/2024 (midnight). -/
def exPagasDF : DataFrame :=
  { cols := ["Data pagamento", "Valor Líquido", "Usuário cadastro baixa", "Desc forma pagto"]
    rows := [["30/01/2024", "1.000,00", "u", "f"]] }

/-- A one-row Paid table whose payment timestamp carries a time of day
(`30/01/2024 10:00:00`). -/
def exTimeDF : DataFrame :=
  { cols := ["Data pagamento", "Valor Líquido", "Usuário cadastro baixa", "Desc forma pagto"]
    rows := [["30/01/2024 10:00:00", "100,00", "u", "f"]] }

/-- A one-row Receivable table: settlement date present, settled amount
`0,00`, status `Recebido`. -/
def exRecDF : DataFrame :=
  { cols := ["Status da parcela", "Nosso número", "Valor da baixa", "Valor devido", "Data da baixa"]
    rows := [["Recebido", "123", "0,00", "50,00", "30/01/2024"]] }

/-- A Paid table with two rows identical on the five identity-key columns
and differing only in the cost-center column. -/
def exDedupDF : DataFrame :=
  { cols := ["Título", "Parcela", "Data pagamento", "Valor Líquido", "Código credor",
             "Usuário cadastro baixa", "Desc forma pagto", "Desc centro custo"]
    rows := [["T1", "1", "30/01/2024", "1.000,00", "C9", "u", "f", "Marketing"],
             ["T1", "1", "30/01/2024", "1.000,00", "C9", "u", "f", "Vendas"]] }

/-- Headers holding exactly the seven columns the Payable branch of
`identify_csv_type` tests for — no due-date and no payable-amount column
among them. -/
def exPayableCols : List String :=
  ["Origem título", "Usuário cadastro", "Data alteração", "Código plano fin",
   "Valor corr monetária", "Data cadastro", "Código forma pagto"]

/-! ## Helper lemmas -/

theorem cumsumFrom_length (acc : ℚ) (l : List ℚ) :
    (cumsumFrom acc l).length = l.length := by
  induction l generalizing acc with
  | nil => rfl
  | cons x xs ih => simp [cumsumFrom, ih]

theorem cumsumFrom_getD (l : List ℚ) :
    ∀ (acc : ℚ) (i : Nat), i < l.length →
      (cumsumFrom acc l).getD i 0 = acc + (l.take (i + 1)).sum := by
  induction l with
  | nil => intro acc i h; exact absurd h (by simp)
  | cons x xs ih =>
    intro acc i h
    cases i with
    | zero => simp [cumsumFrom]
    | succ j =>
      have hj : j < xs.length := by simpa using h
      simp only [cumsumFrom, List.getD_cons_succ, List.take_succ_cons, List.sum_cons]
      rw [ih (acc + x) j hj]
      ring

theorem cumsum_length (l : List ℚ) : (cumsum l).length = l.length :=
  cumsumFrom_length 0 l

theorem cumsum_getD (l : List ℚ) (i : Nat) (h : i < l.length) :
    (cumsum l).getD i 0 = (l.take (i + 1)).sum := by
  rw [cumsum, cumsumFrom_getD l 0 i h, zero_add]

theorem sum_take_getD (l : List ℚ) (i : Nat) (h : i < l.length) :
    (l.take (i + 1)).sum = (l.take i).sum + l.getD i 0 := by
  induction l generalizing i with
  | nil => exact absurd h (by simp)
  | cons x xs ih =>
    cases i with
    | zero => simp
    | succ j =>
      have hj : j < xs.length := by simpa using h
      simp only [List.take_succ_cons, List.sum_cons, List.getD_cons_succ]
      rw [ih j hj]
      ring

theorem sum_nonpos_of_forall (l : List ℚ) (h : ∀ x ∈ l, x ≤ 0) : l.sum ≤ 0 := by
  induction l with
  | nil => simp
  | cons x xs ih =>
    simp only [List.sum_cons]
    have hx := h x (by simp)
    have hxs := ih (fun y hy => h y (by simp [hy]))
    linarith

theorem getD_map_rat (f : Int → ℚ) (l : List Int) (i : Nat) (h : i < l.length) :
    (l.map f).getD i 0 = f (l.getD i 0) := by
  rw [List.getD_eq_getElem _ _ (by simpa using h), List.getD_eq_getElem _ _ h]
  simp

theorem getD_map_add (c : ℚ) (l : List ℚ) (i : Nat) (h : i < l.length) :
    (l.map (· + c)).getD i 0 = l.getD i 0 + c := by
  rw [List.getD_eq_getElem _ _ (by simpa using h), List.getD_eq_getElem _ _ h]
  simp

theorem zipWith_add_getD (l1 l2 : List ℚ) (i : Nat)
    (h1 : i < l1.length) (h2 : i < l2.length) :
    (List.zipWith (· + ·) l1 l2).getD i 0 = l1.getD i 0 + l2.getD i 0 := by
  rw [List.getD_eq_getElem _ _ (by simp [List.length_zipWith]; omega),
    List.getD_eq_getElem _ _ h1, List.getD_eq_getElem _ _ h2]
  simp

theorem sum_zipWith_add (l1 : List ℚ) :
    ∀ l2 : List ℚ, l1.length = l2.length →
      (List.zipWith (· + ·) l1 l2).sum = l1.sum + l2.sum := by
  induction l1 with
  | nil => intro l2 h; simp [(List.length_eq_zero.mp h.symm)]
  | cons x xs ih =>
    intro l2 h
    cases l2 with
    | nil => exact absurd h (by simp)
    | cons y ys =>
      simp only [List.zipWith_cons_cons, List.sum_cons, ih ys (by simpa using h)]
      ring

theorem foldl_min_le {α : Type} [LinearOrder α] (xs : List α) :
    ∀ a : α, xs.foldl min a ≤ a ∧ ∀ x ∈ xs, xs.foldl min a ≤ x := by
  induction xs with
  | nil => intro a; simp
  | cons y ys ih =>
    intro a
    have h := ih (min a y)
    refine ⟨le_trans h.1 (min_le_left a y), ?_⟩
    intro x hx
    rcases List.mem_cons.mp hx with rfl | hx'
    · exact le_trans h.1 (min_le_right a x)
    · exact h.2 x hx'

theorem foldl_min_mem {α : Type} [LinearOrder α] (xs : List α) :
    ∀ a : α, xs.foldl min a = a ∨ xs.foldl min a ∈ xs := by
  induction xs with
  | nil => intro a; simp
  | cons y ys ih =>
    intro a
    rcases ih (min a y) with h | h
    · rcases min_choice a y with hm | hm
      · left; simp only [List.foldl_cons]; rw [h, hm]
      · right; simp only [List.foldl_cons]; rw [h, hm]; simp
    · right; simp only [List.foldl_cons]
      exact List.mem_cons_of_mem y h

theorem foldl_max_ge {α : Type} [LinearOrder α] (xs : List α) :
    ∀ a : α, a ≤ xs.foldl max a ∧ ∀ x ∈ xs, x ≤ xs.foldl max a := by
  induction xs with
  | nil => intro a; simp
  | cons y ys ih =>
    intro a
    have h := ih (max a y)
    refine ⟨le_trans (le_max_left a y) h.1, ?_⟩
    intro x hx
    rcases List.mem_cons.mp hx with rfl | hx'
    · exact le_trans (le_max_right a x) h.1
    · exact h.2 x hx'

theorem foldl_max_mem {α : Type} [LinearOrder α] (xs : List α) :
    ∀ a : α, xs.foldl max a = a ∨ xs.foldl max a ∈ xs := by
  induction xs with
  | nil => intro a; simp
  | cons y ys ih =>
    intro a
    rcases ih (max a y) with h | h
    · rcases max_choice a y with hm | hm
      · left; simp only [List.foldl_cons]; rw [h, hm]
      · right; simp only [List.foldl_cons]; rw [h, hm]; simp
    · right; simp only [List.foldl_cons]
      exact List.mem_cons_of_mem y h

theorem listMinInt_le (l : List Int) (x : Int) (hx : x ∈ l) : listMinInt l ≤ x := by
  cases l with
  | nil => exact absurd hx (by simp)
  | cons a as =>
    rcases List.mem_cons.mp hx with rfl | hx'
    · exact (foldl_min_le as x).1
    · exact (foldl_min_le as a).2 x hx'

theorem listMinInt_mem (l : List Int) (h : l ≠ []) : listMinInt l ∈ l := by
  cases l with
  | nil => exact absurd rfl h
  | cons a as =>
    rcases foldl_min_mem as a with h' | h'
    · simp [listMinInt, h']
    · simp [listMinInt, List.mem_cons_of_mem a h']

theorem listMaxInt_ge (l : List Int) (x : Int) (hx : x ∈ l) : x ≤ listMaxInt l := by
  cases l with
  | nil => exact absurd hx (by simp)
  | cons a as =>
    rcases List.mem_cons.mp hx with rfl | hx'
    · exact (foldl_max_ge as x).1
    · exact (foldl_max_ge as a).2 x hx'

theorem listMaxInt_mem (l : List Int) (h : l ≠ []) : listMaxInt l ∈ l := by
  cases l with
  | nil => exact absurd rfl h
  | cons a as =>
    rcases foldl_max_mem as a with h' | h'
    · simp [listMaxInt, h']
    · simp [listMaxInt, List.mem_cons_of_mem a h']

theorem listMinRat_le (bal : ℚ) (l : List ℚ) (x : ℚ) (hx : x ∈ l) :
    listMinRat bal l ≤ x := by
  cases l with
  | nil => exact absurd hx (by simp)
  | cons a as =>
    rcases List.mem_cons.mp hx with rfl | hx'
    · exact (foldl_min_le as x).1
    · exact (foldl_min_le as a).2 x hx'

theorem listMinRat_mem (bal : ℚ) (l : List ℚ) (h : l ≠ []) : listMinRat bal l ∈ l := by
  cases l with
  | nil => exact absurd rfl h
  | cons a as =>
    rcases foldl_min_mem as a with h' | h'
    · simp [listMinRat, h']
    · simp [listMinRat, List.mem_cons_of_mem a h']

theorem daterange_length (s e : Int) (h : s ≤ e) :
    (daterange s e).length = (e - s).toNat / 86400 + 1 := by
  simp only [daterange, if_pos h, List.length_map, List.length_range]

theorem daterange_getD (s e : Int) (h : s ≤ e) (i : Nat)
    (hi : i < (daterange s e).length) :
    (daterange s e).getD i 0 = s + 86400 * (i : Int) := by
  simp only [daterange, if_pos h] at hi ⊢
  rw [List.getD_eq_getElem _ _ hi]
  simp only [List.getElem_map, List.getElem_range, Int.ofNat_eq_coe]

theorem mem_daterange (s e x : Int) :
    x ∈ daterange s e ↔ s ≤ x ∧ x ≤ e ∧ (x - s) % 86400 = 0 := by
  by_cases h : s ≤ e
  · simp only [daterange, if_pos h, List.mem_map, List.mem_range, Int.ofNat_eq_coe]
    constructor
    · rintro ⟨k, hk, rfl⟩
      have h2 : (e - s).toNat / 86400 * 86400 ≤ (e - s).toNat := Nat.div_mul_le_self _ _
      refine ⟨by omega, by omega, ?_⟩
      have he : s + 86400 * (k : Int) - s = 86400 * (k : Int) := by ring
      rw [he]
      exact Int.mul_emod_right 86400 _
    · rintro ⟨h1, h2, h3⟩
      obtain ⟨c, hc⟩ : (86400 : Int) ∣ (x - s) := Int.dvd_of_emod_eq_zero h3
      have hc0 : 0 ≤ c := by omega
      refine ⟨c.toNat, ?_, ?_⟩
      · have hck : 86400 * c.toNat ≤ (e - s).toNat := by omega
        omega
      · simp only [Int.toNat_of_nonneg hc0]
        omega
  · simp only [daterange, if_neg h, List.not_mem_nil, false_iff]
    intro hc
    exact h (by omega)

theorem firstIdx_lt (a : Int) (l : List Int) (h : a ∈ l) : firstIdx a l < l.length := by
  induction l with
  | nil => exact absurd h (by simp)
  | cons x xs ih =>
    by_cases hx : x = a
    · simp [firstIdx, hx]
    · rcases List.mem_cons.mp h with rfl | h'
      · exact absurd rfl hx
      · simp only [firstIdx, if_neg hx, List.length_cons]
        exact Nat.succ_lt_succ (ih h')

theorem getD_firstIdx (a : Int) (l : List Int) (h : a ∈ l) :
    l.getD (firstIdx a l) 0 = a := by
  induction l with
  | nil => exact absurd h (by simp)
  | cons x xs ih =>
    by_cases hx : x = a
    · simp [firstIdx, hx]
    · rcases List.mem_cons.mp h with rfl | h'
      · exact absurd rfl hx
      · simp only [firstIdx, if_neg hx, List.getD_cons_succ]
        exact ih h'

theorem colIdx_eq_none (cols : List String) (c : String) (h : c ∉ cols) :
    colIdx cols c = none := by
  induction cols with
  | nil => rfl
  | cons x xs ih =>
    have hx : x ≠ c := fun hc => h (by simp [hc])
    simp only [colIdx, if_neg hx]
    rw [ih (fun hc => h (List.mem_cons_of_mem x hc))]
    rfl

theorem dfGet_of_not_mem (df : DataFrame) (r : List String) (c : String)
    (h : c ∉ df.cols) : dfGet df r c = none := by
  simp [dfGet, colIdx_eq_none df.cols c h]

theorem map_eq_map_iff_mem {α β : Type} [DecidableEq β] (f g : α → β) (l : List α) :
    l.map f = l.map g ↔ ∀ c ∈ l, f c = g c :=
  List.map_eq_map_iff

theorem dedupByKey_congr (k1 k2 : List String → List (Option String))
    (hk : ∀ r r', k1 r = k1 r' ↔ k2 r = k2 r') :
    ∀ (rows : List (List String)) (acc : List (List String)),
      dedupByKey k1 rows (acc.map k1) = dedupByKey k2 rows (acc.map k2) := by
  intro rows
  induction rows with
  | nil => intro acc; rfl
  | cons r rs ih =>
    intro acc
    have hmem : k1 r ∈ acc.map k1 ↔ k2 r ∈ acc.map k2 := by
      simp only [List.mem_map]
      constructor
      · rintro ⟨a, ha, hae⟩; exact ⟨a, ha, (hk a r).mp hae⟩
      · rintro ⟨a, ha, hae⟩; exact ⟨a, ha, (hk a r).mpr hae⟩
    by_cases h1 : k1 r ∈ acc.map k1
    · have h2 : k2 r ∈ acc.map k2 := hmem.mp h1
      simp only [dedupByKey, if_pos h1, if_pos h2]
      exact ih acc
    · have h2 : k2 r ∉ acc.map k2 := fun hc => h1 (hmem.mpr hc)
      simp only [dedupByKey, if_neg h1, if_neg h2]
      have := ih (r :: acc)
      simp only [List.map_cons] at this
      rw [this]

theorem fallbackLoop_length (anchor : Int) (bal : ℚ) (minD : Int) :
    ∀ (pairs : List (Int × ℚ)) (cur : ℚ) (found first : Bool),
      (fallbackLoop anchor bal minD pairs cur found first).1.length = pairs.length := by
  intro pairs
  induction pairs with
  | nil => intro cur found first; rfl
  | cons p ps ih =>
    intro cur found first
    obtain ⟨d, f⟩ := p
    simp only [fallbackLoop, List.length_cons]
    rw [ih]

theorem fallbackLoop_plain (anchor : Int) (bal : ℚ) (minD : Int)
    (hm : ¬ anchor ≤ minD) :
    ∀ (pairs : List (Int × ℚ)) (cur : ℚ), (∀ p ∈ pairs, p.1 ≠ anchor) →
      fallbackLoop anchor bal minD pairs cur false false =
        (cumsumFrom cur (pairs.map (·.2)), false) := by
  intro pairs
  induction pairs with
  | nil => intro cur _; rfl
  | cons p ps ih =>
    intro cur hp
    obtain ⟨d, f⟩ := p
    have hd : d ≠ anchor := hp (d, f) (by simp)
    simp only [fallbackLoop, if_neg hd, Bool.false_eq_true, if_false, Bool.not_false,
      Bool.and_true, decide_eq_true_eq, if_neg hm]
    rw [ih (cur + f) (fun q hq => hp q (List.mem_cons_of_mem _ hq))]
    simp [cumsumFrom]

theorem fallbackLoop_plain_first (anchor : Int) (bal : ℚ) (minD : Int)
    (hm : ¬ anchor ≤ minD) (pairs : List (Int × ℚ))
    (hp : ∀ p ∈ pairs, p.1 ≠ anchor) :
    fallbackLoop anchor bal minD pairs 0 false true =
      (cumsumFrom 0 (pairs.map (·.2)), false) := by
  cases pairs with
  | nil => rfl
  | cons p ps =>
    obtain ⟨d, f⟩ := p
    have hd : d ≠ anchor := hp (d, f) (by simp)
    simp only [fallbackLoop, if_neg hd, Bool.false_eq_true, if_false, Bool.not_false,
      Bool.and_true, decide_eq_true_eq, if_neg hm, if_true]
    rw [fallbackLoop_plain anchor bal minD hm ps f
      (fun q hq => hp q (List.mem_cons_of_mem _ hq))]
    simp [cumsumFrom]

theorem summaryStart_le_anchor (txs : List Tx) (anchor : Int) :
    summaryStart txs anchor ≤ anchor := by
  by_cases h : txs.isEmpty
  · simp [summaryStart, h]
  · simp only [summaryStart, if_neg h]
    exact min_le_left _ _

theorem anchor_le_summaryStop (txs : List Tx) (anchor : Int) :
    anchor ≤ summaryStop txs anchor := by
  by_cases h : txs.isEmpty
  · simp [summaryStop, h]
  · simp only [summaryStop, if_neg h]
    exact le_max_left _ _

theorem summaryStart_le_stop (txs : List Tx) (anchor : Int) :
    summaryStart txs anchor ≤ summaryStop txs anchor :=
  le_trans (summaryStart_le_anchor txs anchor) (anchor_le_summaryStop txs anchor)

theorem buildSummary_dates (txs : List Tx) (anchor : Int) (bal : ℚ) :
    (buildSummary txs anchor bal).dates =
      daterange (summaryStart txs anchor) (summaryStop txs anchor) := rfl

theorem buildSummary_rE (txs : List Tx) (anchor : Int) (bal : ℚ) :
    (buildSummary txs anchor bal).realizadoEntrada =
      (buildSummary txs anchor bal).dates.map
        (fun d => dailyFlow txs d "Realizado Entrada") := rfl

theorem buildSummary_rS (txs : List Tx) (anchor : Int) (bal : ℚ) :
    (buildSummary txs anchor bal).realizadoSaida =
      (buildSummary txs anchor bal).dates.map
        (fun d => dailyFlow txs d "Realizado Saída") := rfl

theorem buildSummary_pE (txs : List Tx) (anchor : Int) (bal : ℚ) :
    (buildSummary txs anchor bal).projetadoEntrada =
      (buildSummary txs anchor bal).dates.map
        (fun d => dailyFlow txs d "Projetado Entrada") := rfl

theorem buildSummary_pS (txs : List Tx) (anchor : Int) (bal : ℚ) :
    (buildSummary txs anchor bal).projetadoSaida =
      (buildSummary txs anchor bal).dates.map
        (fun d => dailyFlow txs d "Projetado Saída") := rfl

theorem buildSummary_fluxR (txs : List Tx) (anchor : Int) (bal : ℚ) :
    (buildSummary txs anchor bal).fluxoRealizado =
      List.zipWith (· + ·) (buildSummary txs anchor bal).realizadoEntrada
        (buildSummary txs anchor bal).realizadoSaida := rfl

theorem buildSummary_fluxP (txs : List Tx) (anchor : Int) (bal : ℚ) :
    (buildSummary txs anchor bal).fluxoProjetado =
      List.zipWith (· + ·) (buildSummary txs anchor bal).projetadoEntrada
        (buildSummary txs anchor bal).projetadoSaida := rfl

theorem buildSummary_cum (txs : List Tx) (anchor : Int) (bal : ℚ) :
    (buildSummary txs anchor bal).posicaoAcumulada =
      computeCum (buildSummary txs anchor bal).dates
        (buildSummary txs anchor bal).fluxoRealizado anchor bal := rfl

theorem buildSummary_rE_length (txs : List Tx) (anchor : Int) (bal : ℚ) :
    (buildSummary txs anchor bal).realizadoEntrada.length =
      (buildSummary txs anchor bal).dates.length := by
  rw [buildSummary_rE]; exact List.length_map _ _

theorem buildSummary_rS_length (txs : List Tx) (anchor : Int) (bal : ℚ) :
    (buildSummary txs anchor bal).realizadoSaida.length =
      (buildSummary txs anchor bal).dates.length := by
  rw [buildSummary_rS]; exact List.length_map _ _

theorem buildSummary_fluxR_length (txs : List Tx) (anchor : Int) (bal : ℚ) :
    (buildSummary txs anchor bal).fluxoRealizado.length =
      (buildSummary txs anchor bal).dates.length := by
  rw [buildSummary_fluxR, List.length_zipWith, buildSummary_rE_length,
    buildSummary_rS_length, min_self]

theorem buildSummary_dates_ne_nil (txs : List Tx) (anchor : Int) (bal : ℚ) :
    (buildSummary txs anchor bal).dates ≠ [] := by
  rw [buildSummary_dates]
  have h := daterange_length _ _ (summaryStart_le_stop txs anchor)
  intro hc
  rw [hc] at h
  simp at h

theorem listMinInt_daterange (s e : Int) (h : s ≤ e) :
    listMinInt (daterange s e) = s := by
  have hs : s ∈ daterange s e := by
    rw [mem_daterange]
    exact ⟨le_refl s, h, by simp⟩
  have hne : daterange s e ≠ [] := fun hc => by rw [hc] at hs; simp at hs
  have h1 : listMinInt (daterange s e) ≤ s := listMinInt_le _ s hs
  have h2 : s ≤ listMinInt (daterange s e) := by
    have hm := listMinInt_mem (daterange s e) hne
    rw [mem_daterange] at hm
    exact hm.1
  omega

theorem anchor_mem_of_le_start (txs : List Tx) (anchor : Int) (bal : ℚ)
    (h : anchor ≤ summaryStart txs anchor) :
    anchor ∈ (buildSummary txs anchor bal).dates := by
  have h' : anchor = summaryStart txs anchor :=
    le_antisymm h (summaryStart_le_anchor txs anchor)
  rw [buildSummary_dates, mem_daterange]
  exact ⟨h'.ge, anchor_le_summaryStop txs anchor, by rw [← h']; simp⟩

theorem computeCum_of_mem (dates : List Int) (flux : List ℚ) (anchor : Int)
    (bal : ℚ) (hmem : anchor ∈ dates) :
    computeCum dates flux anchor bal =
      (cumsum flux).map (· + (bal - (flux.take (firstIdx anchor dates)).sum)) := by
  simp only [computeCum, if_pos hmem]

theorem computeCum_of_not_mem_plain (dates : List Int) (flux : List ℚ) (anchor : Int)
    (bal : ℚ) (hlen : flux.length = dates.length) (hne : dates ≠ [])
    (hmem : anchor ∉ dates) (hgt : ¬ anchor ≤ listMinInt dates) :
    computeCum dates flux anchor bal = cumsum flux := by
  have hp : ∀ p ∈ dates.zip flux, p.1 ≠ anchor := by
    intro p hpz hc
    exact hmem (hc ▸ (List.of_mem_zip hpz).1)
  have hsnd : (dates.zip flux).map (·.2) = flux := by
    simpa using List.map_snd_zip dates flux (le_of_eq hlen)
  have hloop := fallbackLoop_plain_first anchor bal (listMinInt dates)
    hgt (dates.zip flux) hp
  rw [hsnd] at hloop
  have hlt : ¬ anchor < listMinInt dates := fun hc => hgt (le_of_lt hc)
  simp only [computeCum, if_neg hmem, hloop, Bool.not_false, Bool.true_and,
    if_neg hlt, cumsum]
  have hie : dates.isEmpty = false := by
    cases dates with
    | nil => exact absurd rfl hne
    | cons a as => rfl
  rw [hie]
  simp

theorem computeCum_length (dates : List Int) (flux : List ℚ) (anchor : Int)
    (bal : ℚ) (hlen : flux.length = dates.length) :
    (computeCum dates flux anchor bal).length = dates.length := by
  by_cases hmem : anchor ∈ dates
  · rw [computeCum_of_mem dates flux anchor bal hmem, List.length_map,
      cumsum_length, hlen]
  · have hfl : (fallbackLoop anchor bal (listMinInt dates)
        (dates.zip flux) 0 false true).1.length = dates.length := by
      rw [fallbackLoop_length, List.length_zip, hlen, min_self]
    have hcl : ((cumsum flux).map (· + bal)).length = dates.length := by
      rw [List.length_map, cumsum_length, hlen]
    simp only [computeCum, if_neg hmem]
    split
    · split
      · exact hcl
      · exact hfl
    · exact hfl

theorem buildSummary_not_le_min (txs : List Tx) (anchor : Int) (bal : ℚ)
    (hmem : anchor ∉ (buildSummary txs anchor bal).dates) :
    ¬ anchor ≤ listMinInt (buildSummary txs anchor bal).dates := by
  intro hle
  have hmin : listMinInt (buildSummary txs anchor bal).dates = summaryStart txs anchor := by
    rw [buildSummary_dates]
    exact listMinInt_daterange _ _ (summaryStart_le_stop txs anchor)
  rw [hmin] at hle
  exact hmem (anchor_mem_of_le_start txs anchor bal hle)

theorem buildSummary_cum_shape (txs : List Tx) (anchor : Int) (bal : ℚ) :
    ∃ C : ℚ, ∀ i, i < (buildSummary txs anchor bal).dates.length →
      (buildSummary txs anchor bal).posicaoAcumulada.getD i 0 =
        ((buildSummary txs anchor bal).fluxoRealizado.take (i + 1)).sum + C := by
  have hlen := buildSummary_fluxR_length txs anchor bal
  by_cases hmem : anchor ∈ (buildSummary txs anchor bal).dates
  · refine ⟨bal - (((buildSummary txs anchor bal).fluxoRealizado.take
      (firstIdx anchor (buildSummary txs anchor bal).dates)).sum), ?_⟩
    intro i hi
    rw [buildSummary_cum, computeCum_of_mem _ _ _ _ hmem]
    have hi1 : i < (cumsum (buildSummary txs anchor bal).fluxoRealizado).length := by
      rw [cumsum_length, hlen]; exact hi
    have hi2 : i < (buildSummary txs anchor bal).fluxoRealizado.length := by
      rw [hlen]; exact hi
    rw [getD_map_add _ _ i hi1, cumsum_getD _ i hi2]
  · refine ⟨0, ?_⟩
    intro i hi
    rw [buildSummary_cum, computeCum_of_not_mem_plain _ _ _ _ hlen
      (buildSummary_dates_ne_nil txs anchor bal) hmem
      (buildSummary_not_le_min txs anchor bal hmem)]
    have hi2 : i < (buildSummary txs anchor bal).fluxoRealizado.length := by
      rw [hlen]; exact hi
    rw [cumsum_getD _ i hi2, add_zero]

theorem buildSummary_dates_getD (txs : List Tx) (anchor : Int) (bal : ℚ)
    (i : Nat) (hi : i < (buildSummary txs anchor bal).dates.length) :
    (buildSummary txs anchor bal).dates.getD i 0 =
      summaryStart txs anchor + 86400 * (i : Int) := by
  rw [buildSummary_dates] at hi ⊢
  exact daterange_getD _ _ (summaryStart_le_stop txs anchor) i hi

/-! ## The claims -/

/-- C1: for every transaction set, anchor date and opening balance, the
bucket whose date equals the anchor date (when it exists) carries
`openingBalance + netRealized` of that day, and each later bucket differs
from its predecessor by exactly its own realized net flow — for anchor
dates inside, before, or after the transaction span (all anchors are
quantified). -/
theorem c1_balance_anchoring (txs : List Tx) (anchor : Int) (bal : ℚ) :
    (∀ i, i < (buildSummary txs anchor bal).dates.length →
      (buildSummary txs anchor bal).dates.getD i 0 = anchor →
      (buildSummary txs anchor bal).posicaoAcumulada.getD i 0 =
        bal + (buildSummary txs anchor bal).fluxoRealizado.getD i 0) ∧
    (∀ i, i + 1 < (buildSummary txs anchor bal).dates.length →
      (buildSummary txs anchor bal).posicaoAcumulada.getD (i + 1) 0 -
        (buildSummary txs anchor bal).posicaoAcumulada.getD i 0 =
        (buildSummary txs anchor bal).fluxoRealizado.getD (i + 1) 0) := by
  have hlen := buildSummary_fluxR_length txs anchor bal
  constructor
  · intro i hi hanchor
    have hmem : anchor ∈ (buildSummary txs anchor bal).dates := by
      have hx : (buildSummary txs anchor bal).dates.getD i 0 ∈
          (buildSummary txs anchor bal).dates := by
        rw [List.getD_eq_getElem _ _ hi]
        exact List.getElem_mem hi
      rwa [hanchor] at hx
    have hidx : firstIdx anchor (buildSummary txs anchor bal).dates <
        (buildSummary txs anchor bal).dates.length := firstIdx_lt _ _ hmem
    have hval : (buildSummary txs anchor bal).dates.getD
        (firstIdx anchor (buildSummary txs anchor bal).dates) 0 = anchor :=
      getD_firstIdx _ _ hmem
    have hieq : i = firstIdx anchor (buildSummary txs anchor bal).dates := by
      have h1 := buildSummary_dates_getD txs anchor bal i hi
      have h2 := buildSummary_dates_getD txs anchor bal _ hidx
      rw [hanchor] at h1
      rw [hval] at h2
      omega
    rw [buildSummary_cum, computeCum_of_mem _ _ _ _ hmem]
    have hi1 : i < (cumsum (buildSummary txs anchor bal).fluxoRealizado).length := by
      rw [cumsum_length, hlen]; exact hi
    have hi2 : i < (buildSummary txs anchor bal).fluxoRealizado.length := by
      rw [hlen]; exact hi
    rw [getD_map_add _ _ i hi1, cumsum_getD _ i hi2, hieq,
      sum_take_getD _ _ (by rw [hlen]; exact hidx)]
    ring
  · obtain ⟨C, hC⟩ := buildSummary_cum_shape txs anchor bal
    intro i hi
    have h1 := hC (i + 1) hi
    have h2 := hC i (lt_trans (Nat.lt_succ_self i) hi)
    rw [h1, h2, sum_take_getD _ (i + 1) (by rw [hlen]; exact hi)]
    ring

/-- Witness for C1 at a concrete run: one paid transaction on 30/01/2024,
anchor 31/01/2024, opening balance 500. -/
theorem c1_balance_anchoring_witness :
    (buildSummary (process_contas_pagas exPagasDF)
        (mkTimestamp 2024 1 31 0 0 0) 500).dates.getD 1 0 =
      mkTimestamp 2024 1 31 0 0 0 ∧
    (buildSummary (process_contas_pagas exPagasDF)
        (mkTimestamp 2024 1 31 0 0 0) 500).posicaoAcumulada.getD 1 0 =
      500 + (buildSummary (process_contas_pagas exPagasDF)
        (mkTimestamp 2024 1 31 0 0 0) 500).fluxoRealizado.getD 1 0 ∧
    (buildSummary (process_contas_pagas exPagasDF)
        (mkTimestamp 2024 1 31 0 0 0) 500).posicaoAcumulada.getD 1 0 -
      (buildSummary (process_contas_pagas exPagasDF)
        (mkTimestamp 2024 1 31 0 0 0) 500).posicaoAcumulada.getD 0 0 =
      (buildSummary (process_contas_pagas exPagasDF)
        (mkTimestamp 2024 1 31 0 0 0) 500).fluxoRealizado.getD 1 0 :=
  ⟨by decide,
   (c1_balance_anchoring (process_contas_pagas exPagasDF)
     (mkTimestamp 2024 1 31 0 0 0) 500).1 1 (by decide) (by decide),
   (c1_balance_anchoring (process_contas_pagas exPagasDF)
     (mkTimestamp 2024 1 31 0 0 0) 500).2 0 (by decide)⟩

theorem dailyFlow_eq_zero (txs : List Tx) (d : Int) (tipo : String)
    (h : ∀ t ∈ txs, t.Data ≠ d) : dailyFlow txs d tipo = 0 := by
  have hf : txs.filter (fun t => decide (t.Data = d) && decide (t.Tipo = tipo)) = [] := by
    rw [List.filter_eq_nil_iff]
    intro t ht
    simp [h t ht]
  rw [dailyFlow, hf]
  rfl

theorem txs_isEmpty_false (txs : List Tx) (h : txs ≠ []) : txs.isEmpty = false := by
  cases txs with
  | nil => exact absurd rfl h
  | cons a as => rfl

theorem summaryStart_mod (txs : List Tx) (anchor : Int)
    (ht : ∀ t ∈ txs, t.Data % 86400 = 0) (ha : anchor % 86400 = 0) :
    summaryStart txs anchor % 86400 = 0 := by
  by_cases he : txs.isEmpty
  · rw [summaryStart, if_pos he]
    exact ha
  · rw [summaryStart, if_neg he]
    have htm : txs.map (·.Data) ≠ [] := by
      cases txs with
      | nil => exact absurd rfl he
      | cons a as => simp
    have hmm := listMinInt_mem (txs.map (·.Data)) htm
    obtain ⟨t, htx, hteq⟩ := List.mem_map.mp hmm
    have := ht t htx
    rcases min_choice anchor (listMinInt (txs.map (·.Data))) with hmc | hmc <;>
      rw [hmc] <;> omega

theorem summaryStop_mod (txs : List Tx) (anchor : Int)
    (ht : ∀ t ∈ txs, t.Data % 86400 = 0) (ha : anchor % 86400 = 0) :
    summaryStop txs anchor % 86400 = 0 := by
  by_cases he : txs.isEmpty
  · rw [summaryStop, if_pos he]
    exact ha
  · rw [summaryStop, if_neg he]
    have htm : txs.map (·.Data) ≠ [] := by
      cases txs with
      | nil => exact absurd rfl he
      | cons a as => simp
    have hmm := listMaxInt_mem (txs.map (·.Data)) htm
    obtain ⟨t, htx, hteq⟩ := List.mem_map.mp hmm
    have := ht t htx
    rcases max_choice anchor (listMaxInt (txs.map (·.Data))) with hmc | hmc <;>
      rw [hmc] <;> omega

theorem daterange_last_getD (s e : Int) (h : s ≤ e) :
    (daterange s e).getD ((daterange s e).length - 1) 0 ≤ e ∧
    e < (daterange s e).getD ((daterange s e).length - 1) 0 + 86400 ∧
    ((e - s) % 86400 = 0 →
      (daterange s e).getD ((daterange s e).length - 1) 0 = e) := by
  have hl := daterange_length s e h
  have hlast : (daterange s e).length - 1 < (daterange s e).length := by
    rw [hl]; omega
  have hg := daterange_getD s e h _ hlast
  rw [hg, hl]
  refine ⟨by omega, by omega, fun hdvd => by omega⟩

/-- C2 counterexample: a ledger-producing run (one Paid row whose payment
timestamp is `30/01/2024 10:00:00`, anchor `01/02/2024`) whose bucket
sequence does *not* reach `max(anchorDate, latest transaction date)`: the
buckets stop at `31/01/2024 10:00:00`, so the anchor's calendar day is
missing from the span. -/
theorem c2_bucket_range_counterexample :
    process_contas_pagas exTimeDF ≠ [] ∧
    (buildSummary (process_contas_pagas exTimeDF)
        (mkTimestamp 2024 2 1 0 0 0) 0).dates =
      [mkTimestamp 2024 1 30 10 0 0, mkTimestamp 2024 1 31 10 0 0] ∧
    (buildSummary (process_contas_pagas exTimeDF)
        (mkTimestamp 2024 2 1 0 0 0) 0).dates.getD
      ((buildSummary (process_contas_pagas exTimeDF)
        (mkTimestamp 2024 2 1 0 0 0) 0).dates.length - 1) 0 ≠
      max (mkTimestamp 2024 2 1 0 0 0)
        (listMaxInt ((process_contas_pagas exTimeDF).map (·.Data))) := by
  refine ⟨by decide, by decide, by decide⟩

/-- C2 (amended): for every ledger-producing run, the bucket sequence
starts at `min(anchorDate, earliest transaction timestamp)`, steps exactly
one day at a time (no gaps), and every bucket day with no transactions has
all four flow fields zero; the last bucket is the last whole-day step not
exceeding `max(anchorDate, latest transaction timestamp)` — it equals that
maximum exactly when the anchor and all transaction timestamps are
midnight-aligned (as when every date parses without a time of day),
otherwise the maximum can be missed by up to a day. -/
theorem c2_bucket_range (txs : List Tx) (anchor : Int) (bal : ℚ)
    (hne : txs ≠ []) :
    (buildSummary txs anchor bal).dates.getD 0 0 =
      min anchor (listMinInt (txs.map (·.Data))) ∧
    (∀ i, i + 1 < (buildSummary txs anchor bal).dates.length →
      (buildSummary txs anchor bal).dates.getD (i + 1) 0 -
        (buildSummary txs anchor bal).dates.getD i 0 = 86400) ∧
    (∀ i, i < (buildSummary txs anchor bal).dates.length →
      (∀ t ∈ txs, t.Data ≠ (buildSummary txs anchor bal).dates.getD i 0) →
      (buildSummary txs anchor bal).realizadoEntrada.getD i 0 = 0 ∧
      (buildSummary txs anchor bal).realizadoSaida.getD i 0 = 0 ∧
      (buildSummary txs anchor bal).projetadoEntrada.getD i 0 = 0 ∧
      (buildSummary txs anchor bal).projetadoSaida.getD i 0 = 0) ∧
    (buildSummary txs anchor bal).dates.getD
        ((buildSummary txs anchor bal).dates.length - 1) 0 ≤
      max anchor (listMaxInt (txs.map (·.Data))) ∧
    max anchor (listMaxInt (txs.map (·.Data))) <
      (buildSummary txs anchor bal).dates.getD
        ((buildSummary txs anchor bal).dates.length - 1) 0 + 86400 ∧
    ((∀ t ∈ txs, t.Data % 86400 = 0) → anchor % 86400 = 0 →
      (buildSummary txs anchor bal).dates.getD
          ((buildSummary txs anchor bal).dates.length - 1) 0 =
        max anchor (listMaxInt (txs.map (·.Data)))) := by
  have hie := txs_isEmpty_false txs hne
  have hs : summaryStart txs anchor = min anchor (listMinInt (txs.map (·.Data))) := by
    rw [summaryStart, hie]; rfl
  have he : summaryStop txs anchor = max anchor (listMaxInt (txs.map (·.Data))) := by
    rw [summaryStop, hie]; rfl
  have hle := summaryStart_le_stop txs anchor
  have hlen0 : 0 < (buildSummary txs anchor bal).dates.length := by
    rw [buildSummary_dates, daterange_length _ _ hle]
    omega
  have hlastB := daterange_last_getD (summaryStart txs anchor) (summaryStop txs anchor) hle
  refine ⟨?_, ?_, ?_, ?_, ?_, ?_⟩
  · rw [buildSummary_dates_getD txs anchor bal 0 hlen0, hs]
    simp
  · intro i hi
    have hi0 : i < (buildSummary txs anchor bal).dates.length := by omega
    rw [buildSummary_dates_getD txs anchor bal (i + 1) hi,
      buildSummary_dates_getD txs anchor bal i hi0]
    push_cast
    ring
  · intro i hi hno
    refine ⟨?_, ?_, ?_, ?_⟩ <;>
      [rw [buildSummary_rE]; rw [buildSummary_rS]; rw [buildSummary_pE];
        rw [buildSummary_pS]] <;>
      rw [getD_map_rat _ _ i hi] <;>
      exact dailyFlow_eq_zero txs _ _ hno
  · rw [buildSummary_dates, ← he]
    exact hlastB.1
  · rw [buildSummary_dates, ← he]
    exact hlastB.2.1
  · intro ht ha
    have h1 := summaryStart_mod txs anchor ht ha
    have h2 := summaryStop_mod txs anchor ht ha
    rw [buildSummary_dates, ← he]
    exact hlastB.2.2 (by omega)

/-- Witness for C2 at a concrete aligned run: one paid transaction on
30/01/2024 (midnight), anchor 01/02/2024 — the start point and the
aligned-case inclusive endpoint both hold there. -/
theorem c2_bucket_range_witness :
    (buildSummary (process_contas_pagas exPagasDF)
        (mkTimestamp 2024 2 1 0 0 0) 0).dates.getD 0 0 =
      min (mkTimestamp 2024 2 1 0 0 0)
        (listMinInt ((process_contas_pagas exPagasDF).map (·.Data))) ∧
    (buildSummary (process_contas_pagas exPagasDF)
        (mkTimestamp 2024 2 1 0 0 0) 0).dates.getD
      ((buildSummary (process_contas_pagas exPagasDF)
        (mkTimestamp 2024 2 1 0 0 0) 0).dates.length - 1) 0 =
      max (mkTimestamp 2024 2 1 0 0 0)
        (listMaxInt ((process_contas_pagas exPagasDF).map (·.Data))) :=
  ⟨(c2_bucket_range (process_contas_pagas exPagasDF) (mkTimestamp 2024 2 1 0 0 0) 0
      (by decide)).1,
   (c2_bucket_range (process_contas_pagas exPagasDF) (mkTimestamp 2024 2 1 0 0 0) 0
      (by decide)).2.2.2.2.2 (by decide) (by decide)⟩

theorem receberRowProjTx_cases (df : DataFrame) (r : List String)
    (status : List Char) (dv : Option Int) (vd : ℚ) :
    ((∃ t, receberRowTx.receberRowProjTx df r status dv vd = some t ∧
        t.Tipo = "Projetado Entrada") ↔
      (dv.isSome ∧ status = "a receber".data ∧ vd ≠ 0)) ∧
    (∀ t, receberRowTx.receberRowProjTx df r status dv vd = some t →
      t.Tipo = "Projetado Entrada") := by
  cases dv with
  | none => simp [receberRowTx.receberRowProjTx]
  | some d =>
    by_cases hc : status = "a receber".data ∧ vd ≠ 0
    · constructor
      · simp only [receberRowTx.receberRowProjTx, if_pos hc, Option.isSome_some,
          true_and]
        exact ⟨fun _ => hc, fun _ => ⟨_, rfl, rfl⟩⟩
      · intro t ht
        simp only [receberRowTx.receberRowProjTx, if_pos hc, Option.some.injEq] at ht
        rw [← ht]
    · constructor
      · simp only [receberRowTx.receberRowProjTx, if_neg hc, Option.isSome_some,
          true_and]
        constructor
        · rintro ⟨t, ht, _⟩
          exact absurd ht (by simp)
        · intro h
          exact absurd h hc
      · intro t ht
        simp only [receberRowTx.receberRowProjTx, if_neg hc] at ht
        exact absurd ht (by simp)

/-- C3 counterexample: a Receivable row with a parsed settlement date,
settled amount `0,00` and status `Recebido` produces a zero-amount
`Realizado Entrada` transaction in the ledger (the code deliberately keeps
zero-value settlements whose status is not `a receber`/`cancelado`),
refuting both the claimed "settled amount nonzero" iff and the claimed
absence of zero-amount transactions. -/
theorem c3_receivable_counterexample :
    identify_csv_type exRecDF.cols = "Contas a Receber/Recebidas" ∧
    parse_decimal_br (dfGet exRecDF (exRecDF.rows.getD 0 []) "Valor da baixa") = 0 ∧
    (process_contas_receber_recebidas exRecDF).map (fun t => (t.Valor, t.Tipo)) =
      [(0, "Realizado Entrada")] :=
  ⟨by decide, by decide, by decide⟩

/-- C3 (amended): a Receivable row emits a `Realizado Entrada` iff its
settlement date parses *and* (the settled amount is nonzero *or* the
normalized parcel status is neither `a receber` nor `cancelado`); otherwise
it emits a `Projetado Entrada` iff the due date parses, the status equals
`a receber` and the due amount is nonzero.  Zero-amount realized
transactions therefore do enter the ledger when a zero settlement carries a
status other than `a receber`/`cancelado`. -/
theorem c3_receivable_rules (df : DataFrame) (r : List String) :
    ((∃ t, receberRowTx df r = some t ∧ t.Tipo = "Realizado Entrada") ↔
      ((parse_date (dfGet df r "Data da baixa")).isSome ∧
        (parse_decimal_br (dfGet df r "Valor da baixa") ≠ 0 ∨
          statusParcela df r ∉ ["a receber".data, "cancelado".data]))) ∧
    ((∃ t, receberRowTx df r = some t ∧ t.Tipo = "Projetado Entrada") ↔
      (¬ ((parse_date (dfGet df r "Data da baixa")).isSome ∧
          (parse_decimal_br (dfGet df r "Valor da baixa") ≠ 0 ∨
            statusParcela df r ∉ ["a receber".data, "cancelado".data])) ∧
        (parse_date (dfGet df r "Data vencimento")).isSome ∧
        statusParcela df r = "a receber".data ∧
        parse_decimal_br (dfGet df r "Valor devido") ≠ 0)) := by
  have hproj := receberRowProjTx_cases df r (statusParcela df r)
    (parse_date (dfGet df r "Data vencimento"))
    (parse_decimal_br (dfGet df r "Valor devido"))
  simp only [receberRowTx]
  cases hdb : parse_date (dfGet df r "Data da baixa") with
  | none =>
    constructor
    · constructor
      · rintro ⟨t, ht, htt⟩
        rw [hproj.2 t ht] at htt
        exact absurd htt (by decide)
      · rintro ⟨hs, _⟩
        exact absurd hs (by simp)
    · rw [hproj.1]
      simp
  | some dt =>
    by_cases hrc : parse_decimal_br (dfGet df r "Valor da baixa") ≠ 0 ∨
        statusParcela df r ∉ ["a receber".data, "cancelado".data]
    · simp only [if_pos hrc]
      constructor
      · constructor
        · intro _
          exact ⟨rfl, hrc⟩
        · intro _
          exact ⟨_, rfl, rfl⟩
      · constructor
        · rintro ⟨t, ht, htt⟩
          rw [Option.some.injEq] at ht
          rw [← ht] at htt
          have h2 : ("Realizado Entrada" : String) = "Projetado Entrada" := htt
          exact absurd h2 (by decide)
        · rintro ⟨hnot, _⟩
          exact absurd ⟨rfl, hrc⟩ hnot
    · simp only [if_neg hrc]
      constructor
      · constructor
        · rintro ⟨t, ht, htt⟩
          rw [hproj.2 t ht] at htt
          exact absurd htt (by decide)
        · rintro ⟨_, hx⟩
          exact absurd hx hrc
      · rw [hproj.1]
        constructor
        · rintro ⟨hdv, hst, hvd⟩
          exact ⟨fun hc => hrc hc.2, hdv, hst, hvd⟩
        · rintro ⟨_, hdv, hst, hvd⟩
          exact ⟨hdv, hst, hvd⟩

/-- Witness for C3 at the concrete zero-settlement row: the realized-side
characterization holds there. -/
theorem c3_receivable_rules_witness :
    (∃ t, receberRowTx exRecDF (exRecDF.rows.getD 0 []) = some t ∧
      t.Tipo = "Realizado Entrada") :=
  (c3_receivable_rules exRecDF (exRecDF.rows.getD 0 [])).1.mpr
    ⟨by decide, by decide⟩

/-- C4 counterexample: a table carrying exactly the seven identifier columns
of the Payable branch is resolved as `Contas a Pagar` although it has
neither a due-date (`Data vencimento`) nor a payable-amount
(`Valor a pagar`) column — the resolver never looks at those two columns,
which only the row classifier reads. -/
theorem c4_payable_counterexample :
    identify_csv_type exPayableCols = "Contas a Pagar" ∧
    "Data vencimento" ∉ exPayableCols ∧
    "Valor a pagar" ∉ exPayableCols :=
  ⟨by decide, by decide, by decide⟩

/-- C4 (amended): a table is resolved `Contas a Pagar` only if its headers
contain all of `Origem título`, `Usuário cadastro`, `Data alteração`,
`Código plano fin`, `Valor corr monetária`, `Data cadastro` and
`Código forma pagto`, and lack both the payment-date column
(`Data pagamento`) and the receivable-status column (`Status da parcela`).
Due-date and payable-amount columns play no role in resolution. -/
theorem c4_payable_resolution (cols : List String)
    (h : identify_csv_type cols = "Contas a Pagar") :
    (∀ c ∈ COLS_A_PAGAR_IDENTIFIERS, c ∈ cols) ∧
    "Valor corr monetária" ∈ cols ∧ "Data cadastro" ∈ cols ∧
    "Código forma pagto" ∈ cols ∧
    "Data pagamento" ∉ cols ∧ "Status da parcela" ∉ cols := by
  rw [identify_csv_type] at h
  split at h
  · split at h
    · exact absurd h (by decide)
    · exact absurd h (by decide)
  · split at h
    next b2 =>
      simp only [List.all_eq_true, Bool.and_eq_true, Bool.not_eq_true',
        decide_eq_true_eq, decide_eq_false_iff_not] at b2
      refine ⟨?_, ?_, ?_, ?_, ?_, ?_⟩ <;> tauto
    next b2 =>
      split at h
      · exact absurd h (by decide)
      · exact absurd h (by decide)

/-- Witness for C4 at the seven-identifier-column table. -/
theorem c4_payable_resolution_witness :
    (∀ c ∈ COLS_A_PAGAR_IDENTIFIERS, c ∈ exPayableCols) ∧
    "Valor corr monetária" ∈ exPayableCols ∧ "Data cadastro" ∈ exPayableCols ∧
    "Código forma pagto" ∈ exPayableCols ∧
    "Data pagamento" ∉ exPayableCols ∧ "Status da parcela" ∉ exPayableCols :=
  c4_payable_resolution exPayableCols (by decide)

/-- C5: the Brazilian-locale amount parser maps `"1.234,56"` to `1234.56`
and `"7.500,00"` to `7500.00`; the fully non-numeric `"abc"` yields the
parser's failure result `0`, which is what every caller sums — the
function is total, so no exception can arise. -/
theorem c5_parse_decimal_br :
    parse_decimal_br (some "1.234,56") = 1234.56 ∧
    parse_decimal_br (some "7.500,00") = 7500 ∧
    parse_decimal_br (some "abc") = 0 :=
  ⟨by decide, by decide, by decide⟩

/-- C9: `"30/01/2024"` and `"2024-01-30"` parse to the same calendar date
(30 January 2024, midnight); the four formats are tried in their listed
order with the first success winning; and total failure yields `none`, not
an exception. -/
theorem c9_parse_date_formats :
    parse_date (some "30/01/2024") = some (mkTimestamp 2024 1 30 0 0 0) ∧
    parse_date (some "2024-01-30") = some (mkTimestamp 2024 1 30 0 0 0) ∧
    (∀ s r, strptimeYmd true s = some r → tryDateFormats s = some r) ∧
    (∀ s r, strptimeYmd true s = none → strptimeYmd false s = some r →
      tryDateFormats s = some r) ∧
    (∀ s r, strptimeYmd true s = none → strptimeYmd false s = none →
      strptimeDmy true s = some r → tryDateFormats s = some r) ∧
    (∀ s, strptimeYmd true s = none → strptimeYmd false s = none →
      strptimeDmy true s = none → tryDateFormats s = strptimeDmy false s) ∧
    parse_date (some "abc") = none := by
  refine ⟨by decide, by decide, ?_, ?_, ?_, ?_, by decide⟩
  · intro s r h
    simp only [tryDateFormats, h]
  · intro s r h1 h2
    simp only [tryDateFormats, h1, h2]
  · intro s r h1 h2 h3
    simp only [tryDateFormats, h1, h2, h3]
  · intro s h1 h2 h3
    simp only [tryDateFormats, h1, h2, h3]

/-- Witness for C9: the first format (`%Y-%m-%d %H:%M:%S`) wins at a
concrete timestamped string. -/
theorem c9_parse_date_formats_witness :
    tryDateFormats "2024-01-30 10:00:00" = some (mkTimestamp 2024 1 30 10 0 0) :=
  c9_parse_date_formats.2.2.1 "2024-01-30 10:00:00"
    (mkTimestamp 2024 1 30 10 0 0) (by decide)

theorem pagas_tx_spec (df : DataFrame) :
    ∀ t ∈ process_contas_pagas df, t.Tipo = "Realizado Saída" ∧ t.Valor ≤ 0 := by
  intro t ht
  obtain ⟨r, _, hrt⟩ := List.mem_filterMap.mp ht
  rw [pagasRowTx] at hrt
  split at hrt
  · exact absurd hrt (by simp)
  · dsimp only at hrt
    split at hrt
    · rw [Option.some.injEq] at hrt
      rw [← hrt]
      exact ⟨rfl, neg_nonpos.mpr (abs_nonneg _)⟩
    · exact absurd hrt (by simp)

theorem aPagar_tx_spec (df : DataFrame) :
    ∀ t ∈ process_contas_a_pagar df, t.Tipo = "Projetado Saída" ∧ t.Valor ≤ 0 := by
  intro t ht
  obtain ⟨r, _, hrt⟩ := List.mem_filterMap.mp ht
  rw [aPagarRowTx] at hrt
  split at hrt
  · exact absurd hrt (by simp)
  · dsimp only at hrt
    split at hrt
    · rw [Option.some.injEq] at hrt
      rw [← hrt]
      exact ⟨rfl, neg_nonpos.mpr (abs_nonneg _)⟩
    · exact absurd hrt (by simp)

theorem receber_tx_spec (df : DataFrame) :
    ∀ t ∈ process_contas_receber_recebidas df,
      (t.Tipo = "Realizado Entrada" ∨ t.Tipo = "Projetado Entrada") ∧ 0 ≤ t.Valor := by
  intro t ht
  obtain ⟨r, _, hrt⟩ := List.mem_filterMap.mp ht
  have hproj : ∀ dv vd t', receberRowTx.receberRowProjTx df r (statusParcela df r) dv vd =
      some t' → t'.Tipo = "Projetado Entrada" ∧ 0 ≤ t'.Valor := by
    intro dv vd t' ht'
    cases dv with
    | none => exact absurd ht' (by simp [receberRowTx.receberRowProjTx])
    | some d =>
      by_cases hc : statusParcela df r = "a receber".data ∧ vd ≠ 0
      · rw [receberRowTx.receberRowProjTx, if_pos hc, Option.some.injEq] at ht'
        rw [← ht']
        exact ⟨rfl, abs_nonneg _⟩
      · rw [receberRowTx.receberRowProjTx, if_neg hc] at ht'
        exact absurd ht' (by simp)
  rw [receberRowTx] at hrt
  split at hrt
  · split at hrt
    · rw [Option.some.injEq] at hrt
      rw [← hrt]
      exact ⟨Or.inl rfl, abs_nonneg _⟩
    · obtain ⟨h1, h2⟩ := hproj _ _ t hrt
      exact ⟨Or.inr h1, h2⟩
  · obtain ⟨h1, h2⟩ := hproj _ _ t hrt
    exact ⟨Or.inr h1, h2⟩

theorem pipelineTxs_sign (df1 df2 df3 : DataFrame) :
    ∀ t ∈ pipelineTxs df1 df2 df3,
      ((t.Tipo = "Realizado Saída" ∨ t.Tipo = "Projetado Saída") → t.Valor ≤ 0) ∧
      ((t.Tipo = "Realizado Entrada" ∨ t.Tipo = "Projetado Entrada") → 0 ≤ t.Valor) := by
  intro t ht
  rw [pipelineTxs, List.append_assoc] at ht
  rcases List.mem_append.mp ht with h | h
  · obtain ⟨h1, h2⟩ := pagas_tx_spec df1 t h
    constructor
    · intro _; exact h2
    · intro hc
      rcases hc with hc | hc <;> rw [h1] at hc <;> exact absurd hc (by decide)
  · rcases List.mem_append.mp h with h' | h'
    · obtain ⟨h1, h2⟩ := aPagar_tx_spec df2 t h'
      constructor
      · intro _; exact h2
      · intro hc
        rcases hc with hc | hc <;> rw [h1] at hc <;> exact absurd hc (by decide)
    · obtain ⟨h1, h2⟩ := receber_tx_spec df3 t h'
      constructor
      · intro hc
        rcases h1 with h1 | h1 <;> rcases hc with hc | hc <;> rw [h1] at hc <;>
          exact absurd hc (by decide)
      · intro _; exact h2

theorem dailyFlow_nonpos (txs : List Tx) (d : Int) (tipo : String)
    (h : ∀ t ∈ txs, t.Tipo = tipo → t.Valor ≤ 0) : dailyFlow txs d tipo ≤ 0 := by
  apply sum_nonpos_of_forall
  intro x hx
  obtain ⟨t, htf, rfl⟩ := List.mem_map.mp hx
  obtain ⟨htm, hcond⟩ := List.mem_filter.mp htf
  simp only [Bool.and_eq_true, decide_eq_true_eq] at hcond
  exact h t htm hcond.2

theorem dailyFlow_nonneg (txs : List Tx) (d : Int) (tipo : String)
    (h : ∀ t ∈ txs, t.Tipo = tipo → 0 ≤ t.Valor) : 0 ≤ dailyFlow txs d tipo := by
  apply List.sum_nonneg
  intro x hx
  obtain ⟨t, htf, rfl⟩ := List.mem_map.mp hx
  obtain ⟨htm, hcond⟩ := List.mem_filter.mp htf
  simp only [Bool.and_eq_true, decide_eq_true_eq] at hcond
  exact h t htm hcond.2

/-- C6 counterexample: a run with one paid row of `1.000,00` produces a
bucket whose realized-outflow field is `-1000` — the outflow fields carry
the sign, they are not non-negative magnitudes; the daily net is the *sum*
of the entrada and saída fields. -/
theorem c6_outflow_counterexample :
    (buildSummary (pipelineTxs exPagasDF emptyDF emptyDF)
        (mkTimestamp 2024 1 30 0 0 0) 0).realizadoSaida = [-1000] ∧
    ¬ (0 : ℚ) ≤ -1000 ∧
    (buildSummary (pipelineTxs exPagasDF emptyDF emptyDF)
        (mkTimestamp 2024 1 30 0 0 0) 0).fluxoRealizado = [-1000] :=
  ⟨by decide, by decide, by decide⟩

/-- C6 (amended): in every generated daily bucket the outflow fields are
*non-positive* (outflow amounts are stored negated), the inflow fields are
non-negative, and the daily net flows are the sums
`entrada + saída` of the signed fields (numerically `inflow − |outflow|`). -/
theorem c6_flow_sign_convention (df1 df2 df3 : DataFrame) (anchor : Int) (bal : ℚ) :
    (∀ x ∈ (buildSummary (pipelineTxs df1 df2 df3) anchor bal).realizadoSaida, x ≤ 0) ∧
    (∀ x ∈ (buildSummary (pipelineTxs df1 df2 df3) anchor bal).projetadoSaida, x ≤ 0) ∧
    (∀ x ∈ (buildSummary (pipelineTxs df1 df2 df3) anchor bal).realizadoEntrada, 0 ≤ x) ∧
    (∀ x ∈ (buildSummary (pipelineTxs df1 df2 df3) anchor bal).projetadoEntrada, 0 ≤ x) ∧
    (buildSummary (pipelineTxs df1 df2 df3) anchor bal).fluxoRealizado =
      List.zipWith (· + ·)
        (buildSummary (pipelineTxs df1 df2 df3) anchor bal).realizadoEntrada
        (buildSummary (pipelineTxs df1 df2 df3) anchor bal).realizadoSaida ∧
    (buildSummary (pipelineTxs df1 df2 df3) anchor bal).fluxoProjetado =
      List.zipWith (· + ·)
        (buildSummary (pipelineTxs df1 df2 df3) anchor bal).projetadoEntrada
        (buildSummary (pipelineTxs df1 df2 df3) anchor bal).projetadoSaida := by
  have hsign := pipelineTxs_sign df1 df2 df3
  refine ⟨?_, ?_, ?_, ?_, rfl, rfl⟩
  · intro x hx
    rw [buildSummary_rS] at hx
    obtain ⟨d, _, rfl⟩ := List.mem_map.mp hx
    exact dailyFlow_nonpos _ d _ (fun t ht htt => (hsign t ht).1 (Or.inl htt))
  · intro x hx
    rw [buildSummary_pS] at hx
    obtain ⟨d, _, rfl⟩ := List.mem_map.mp hx
    exact dailyFlow_nonpos _ d _ (fun t ht htt => (hsign t ht).1 (Or.inr htt))
  · intro x hx
    rw [buildSummary_rE] at hx
    obtain ⟨d, _, rfl⟩ := List.mem_map.mp hx
    exact dailyFlow_nonneg _ d _ (fun t ht htt => (hsign t ht).2 (Or.inl htt))
  · intro x hx
    rw [buildSummary_pE] at hx
    obtain ⟨d, _, rfl⟩ := List.mem_map.mp hx
    exact dailyFlow_nonneg _ d _ (fun t ht htt => (hsign t ht).2 (Or.inr htt))

/-- Witness for C6: the signed outflow field of the concrete run is ≤ 0. -/
theorem c6_flow_sign_convention_witness : (-1000 : ℚ) ≤ 0 :=
  (c6_flow_sign_convention exPagasDF emptyDF emptyDF
    (mkTimestamp 2024 1 30 0 0 0) 0).1 (-1000) (by decide)

theorem getLastD_getD (l : List ℚ) (bal : ℚ) (h : l ≠ []) :
    (l.getLast?).getD bal = l.getD (l.length - 1) 0 := by
  have hl : 0 < l.length := List.length_pos.mpr h
  rw [List.getLast?_eq_getElem?, List.getElem?_eq_getElem (by omega),
    List.getD_eq_getElem _ _ (by omega)]
  rfl

/-- C7 counterexample: one paid transaction of `1.000,00` on 30/01/2024
with the anchor on 31/01/2024 and opening balance 0.  The final cumulative
balance is 0 (the pre-anchor flow is absorbed by the anchoring), so
`finalBalance − openingBalance = 0`, yet the reported realized period-net
KPI is `-1000` — the KPI is the plain sum of all realized flows, not
`finalBalance − openingBalance`. -/
theorem c7_kpi_counterexample :
    (computeKPIs (buildSummary (process_contas_pagas exPagasDF)
        (mkTimestamp 2024 1 31 0 0 0) 0) 0).saldoRealizadoPeriodo = -1000 ∧
    (computeKPIs (buildSummary (process_contas_pagas exPagasDF)
        (mkTimestamp 2024 1 31 0 0 0) 0) 0).resultadoFinal = 0 ∧
    (computeKPIs (buildSummary (process_contas_pagas exPagasDF)
        (mkTimestamp 2024 1 31 0 0 0) 0) 0).saldoRealizadoPeriodo ≠
      (computeKPIs (buildSummary (process_contas_pagas exPagasDF)
        (mkTimestamp 2024 1 31 0 0 0) 0) 0).resultadoFinal - 0 :=
  ⟨by decide, by decide, by decide⟩

/-- C7 (amended): the minimum-cumulative-balance KPI is the minimum of the
cumulative column (a lower bound attained on a non-empty ledger), the
final-balance KPI is the last cumulative value, and the realized period-net
KPI equals the *sum of all realized daily flows* over the span — which
equals `finalBalance − openingBalance` only when the realized flows strictly
before the anchor bucket sum to zero. -/
theorem c7_kpi_definitions (txs : List Tx) (anchor : Int) (bal : ℚ) :
    (∀ x ∈ (buildSummary txs anchor bal).posicaoAcumulada,
      (computeKPIs (buildSummary txs anchor bal) bal).minCaixa ≤ x) ∧
    ((buildSummary txs anchor bal).posicaoAcumulada ≠ [] →
      (computeKPIs (buildSummary txs anchor bal) bal).minCaixa ∈
        (buildSummary txs anchor bal).posicaoAcumulada) ∧
    ((buildSummary txs anchor bal).posicaoAcumulada ≠ [] →
      (computeKPIs (buildSummary txs anchor bal) bal).resultadoFinal =
        (buildSummary txs anchor bal).posicaoAcumulada.getD
          ((buildSummary txs anchor bal).posicaoAcumulada.length - 1) 0) ∧
    (computeKPIs (buildSummary txs anchor bal) bal).saldoRealizadoPeriodo =
      (buildSummary txs anchor bal).fluxoRealizado.sum := by
  refine ⟨?_, ?_, ?_, ?_⟩
  · intro x hx
    exact listMinRat_le bal _ x hx
  · intro h
    exact listMinRat_mem bal _ h
  · intro h
    exact getLastD_getD _ bal h
  · show (buildSummary txs anchor bal).realizadoEntrada.sum +
      (buildSummary txs anchor bal).realizadoSaida.sum =
      (buildSummary txs anchor bal).fluxoRealizado.sum
    rw [buildSummary_fluxR, sum_zipWith_add _ _
      (by rw [buildSummary_rE_length, buildSummary_rS_length])]

/-- Witness for C7 at the concrete run of the counterexample. -/
theorem c7_kpi_definitions_witness :
    (computeKPIs (buildSummary (process_contas_pagas exPagasDF)
        (mkTimestamp 2024 1 31 0 0 0) 0) 0).saldoRealizadoPeriodo =
      (buildSummary (process_contas_pagas exPagasDF)
        (mkTimestamp 2024 1 31 0 0 0) 0).fluxoRealizado.sum ∧
    (computeKPIs (buildSummary (process_contas_pagas exPagasDF)
        (mkTimestamp 2024 1 31 0 0 0) 0) 0).minCaixa ∈
      (buildSummary (process_contas_pagas exPagasDF)
        (mkTimestamp 2024 1 31 0 0 0) 0).posicaoAcumulada :=
  ⟨(c7_kpi_definitions (process_contas_pagas exPagasDF)
      (mkTimestamp 2024 1 31 0 0 0) 0).2.2.2,
   (c7_kpi_definitions (process_contas_pagas exPagasDF)
      (mkTimestamp 2024 1 31 0 0 0) 0).2.1 (by decide)⟩

/-- C8: for every table resolved as `Contas Pagas`, the pre-classification
deduplication retains exactly the first row per distinct value of the full
five-component identity key (title, installment, payment date, net amount,
creditor) — columns absent from the table contribute their missing marker
uniformly, so deduplicating over the present key columns coincides with
deduplicating over the full tuple; and the two cost-center-split rows of
`exDedupDF` collapse to a single transaction of that amount (`1.000,00`,
stored as the outflow `-1000`). -/
theorem c8_paid_dedup :
    (∀ df : DataFrame, identify_csv_type df.cols = "Contas Pagas" →
      pagasDedupRows df = specIdentityDedup df) ∧
    (process_contas_pagas exDedupDF).map (fun t => t.Valor) = [-1000] := by
  constructor
  · intro df hid
    have hdp : "Data pagamento" ∈ df.cols := by
      rw [identify_csv_type] at hid
      split at hid
      next b1 =>
        simp only [Bool.and_eq_true, List.all_eq_true, decide_eq_true_eq,
          Bool.not_eq_true', decide_eq_false_iff_not] at b1
        exact b1.1 "Data pagamento" (by decide)
      next b1 =>
        split at hid
        next => exact absurd hid (by decide)
        next =>
          split at hid
          · exact absurd hid (by decide)
          · exact absurd hid (by decide)
    have hmemk : "Data pagamento" ∈ actualSubsetCols df := by
      rw [actualSubsetCols]
      exact List.mem_filter.mpr ⟨by decide, by simp [hdp]⟩
    have hsub : actualSubsetCols df ≠ [] := by
      intro hc
      rw [hc] at hmemk
      exact absurd hmemk (by simp)
    have hk : ∀ r r', (actualSubsetCols df).map (dfGet df r) =
        (actualSubsetCols df).map (dfGet df r') ↔
        keyPaymentCols.map (dfGet df r) = keyPaymentCols.map (dfGet df r') := by
      intro r r'
      rw [map_eq_map_iff_mem, map_eq_map_iff_mem]
      constructor
      · intro h c hc
        by_cases hcc : c ∈ df.cols
        · exact h c (List.mem_filter.mpr ⟨hc, by simp [hcc]⟩)
        · rw [dfGet_of_not_mem df r c hcc, dfGet_of_not_mem df r' c hcc]
      · intro h c hc
        exact h c (List.mem_filter.mp ((actualSubsetCols.eq_def df ▸ hc))).1
    rw [pagasDedupRows, if_neg hsub, specIdentityDedup]
    have hcongr := dedupByKey_congr (fun r => (actualSubsetCols df).map (dfGet df r))
      (fun r => keyPaymentCols.map (dfGet df r)) hk df.rows []
    simpa using hcongr
  · decide

/-- Witness for C8 at the concrete cost-center-split table. -/
theorem c8_paid_dedup_witness :
    pagasDedupRows exDedupDF = specIdentityDedup exDedupDF :=
  c8_paid_dedup.1 exDedupDF (by decide)


/-- C10 counterexample: a run whose single paid transaction is timestamped
`30/01/2024 10:00:00` with anchor `01/02/2024`.  The bucket range is built
from `min`/`max` against the anchor, but `pd.date_range` steps from the
(10:00) start in whole days, so the midnight anchor is *not* among the
bucket dates, the prefix-sum branch is skipped, and the fallback loop runs —
producing a cumulative column that ignores the opening balance 1000
entirely. -/
theorem c10_fallback_counterexample :
    process_contas_pagas exTimeDF ≠ [] ∧
    (mkTimestamp 2024 2 1 0 0 0) ∉
      (buildSummary (process_contas_pagas exTimeDF)
        (mkTimestamp 2024 2 1 0 0 0) 1000).dates ∧
    (buildSummary (process_contas_pagas exTimeDF)
        (mkTimestamp 2024 2 1 0 0 0) 1000).posicaoAcumulada = [-100, -100] :=
  ⟨by decide, by decide, by decide⟩

/-- C10 (amended): the bucket range contains the anchor date — and the
cumulative balance is then computed by the single prefix-sum branch —
whenever the anchor and every transaction timestamp are midnight-aligned
(as when all dates parse without a time-of-day component); when a
transaction timestamp carries a time of day, the anchor can fall outside
the generated dates and the imperative fallback loop is reachable. -/
theorem c10_anchor_in_range (txs : List Tx) (anchor : Int) (bal : ℚ)
    (ht : ∀ t ∈ txs, t.Data % 86400 = 0) (ha : anchor % 86400 = 0) :
    anchor ∈ (buildSummary txs anchor bal).dates ∧
    (buildSummary txs anchor bal).posicaoAcumulada =
      (cumsum (buildSummary txs anchor bal).fluxoRealizado).map
        (· + (bal - ((buildSummary txs anchor bal).fluxoRealizado.take
          (firstIdx anchor (buildSummary txs anchor bal).dates)).sum)) := by
  have hsmod := summaryStart_mod txs anchor ht ha
  have hmem : anchor ∈ (buildSummary txs anchor bal).dates := by
    rw [buildSummary_dates, mem_daterange]
    exact ⟨summaryStart_le_anchor txs anchor, anchor_le_summaryStop txs anchor,
      by omega⟩
  exact ⟨hmem, by rw [buildSummary_cum, computeCum_of_mem _ _ _ _ hmem]⟩

/-- Witness for C10 at the midnight-aligned run of `exPagasDF` with anchor
01/02/2024. -/
theorem c10_anchor_in_range_witness :
    (mkTimestamp 2024 2 1 0 0 0) ∈
      (buildSummary (process_contas_pagas exPagasDF)
        (mkTimestamp 2024 2 1 0 0 0) 0).dates :=
  (c10_anchor_in_range (process_contas_pagas exPagasDF)
    (mkTimestamp 2024 2 1 0 0 0) 0 (by decide) (by decide)).1
